import Mathlib

/-!
The program rds-datadog-config: the filtering and config-synthesis pipeline of `main.go`

A shallow embedding of `ParseAwsRdsInstance`, `FindAuroraMember`,
`ParseAwsClusterMembers`, `ClusterVPCFilter`, `ClusterIniFilter`,
`CreateDatadogConfigs` and the part of `main` that chains them, followed by
the properties proved about them.

Conventions of the embedding:
* a Go pointer field (`*string`, `*int64`, `*Endpoint`) is an `Option`; dereferencing
  `nil` is the run-time panic `Failure.panic`;
* a function that can return an error, panic or exit the process returns
  `Except Failure _`;
* `int64` values are only copied, never computed with, and are `Int`;
* a `for ... range` loop that appends to a slice is a left fold (or a structural
  recursion carrying the slice built so far);
* the library call `sort.Slice` is a parameter of the pipeline, constrained by its
  contract `SortsSlice`;
* the Unicode table behind the library call `strings.EqualFold` is the parameter
  `folding`, whose ASCII part is fixed.
-/

set_option autoImplicit false

namespace RdsDatadogConfig

/-! ## Failure modes -/

/-- The ways a call can end without a normal result. -/
inductive Failure where
  /-- A Go `error` value handed back to the caller (`errors.New msg`). -/
  | error (msg : String)
  /-- A run-time panic: an explicit `panic(msg)` or a nil dereference. -/
  | panic (msg : String)
  /-- The process was ended with `os.Exit(code)`. -/
  | exit (code : Nat)
  deriving DecidableEq, Repr

/-- The message of the panic Go raises on a nil dereference. -/
def nilDereference : String := "invalid memory address or nil pointer dereference"

/-- Dereference `*p` of a pointer: the value, or the nil-dereference panic. -/
def deref {α : Type} : Option α → Except Failure α
  | some a => .ok a
  | none => .error (.panic nilDereference)

/-! ## Data model -/

/-- Keeping track of the useful parts of the Clusters endpoint. -/
structure ClusterMember where
  Cluster : String
  InstanceIdentifier : String
  IsWriter : Bool
  deriving DecidableEq, Repr

/-- Keeping track of the useful part of the Instances endpoint. -/
structure DatabaseState where
  Engine : String
  Cluster : String
  Identifier : String
  Hostname : String
  Port : Int
  VPC : String
  Username : String
  Password : String
  MySQLReplication : Bool
  AuroraReadReplica : Bool
  deriving DecidableEq, Repr

/-- The anonymous `Options` struct of `DatadogConfig`. -/
structure DatadogOptions where
  Replication : Bool
  ExtraStatus : Bool
  ExtraInnoDb : Bool
  DisableInnoDb : Bool
  ExtraPerformance : Bool
  SchemaSize : Bool
  ProcessList : Bool
  deriving DecidableEq, Repr

/-- The Datadog MySQL config of one instance. -/
structure DatadogConfig where
  Server : String
  User : String
  Pass : String
  Port : Int
  ConnectTimeout : Int
  Tags : List String
  Options : DatadogOptions
  deriving DecidableEq, Repr

/-- The zero value of `DatabaseState` (`var config DatabaseState`). -/
def DatabaseState.zero : DatabaseState :=
  { Engine := "", Cluster := "", Identifier := "", Hostname := "", Port := 0, VPC := "",
    Username := "", Password := "", MySQLReplication := false, AuroraReadReplica := false }

/-- The zero value of `DatadogConfig` (`var ddConfig DatadogConfig`). -/
def DatadogConfig.zero : DatadogConfig :=
  { Server := "", User := "", Pass := "", Port := 0, ConnectTimeout := 0, Tags := [],
    Options := { Replication := false, ExtraStatus := false, ExtraInnoDb := false,
                 DisableInnoDb := false, ExtraPerformance := false, SchemaSize := false,
                 ProcessList := false } }

/-! ## The raw AWS descriptions (the fields `main.go` reads) -/

/-- The `rds.Endpoint` of an instance: `Address *string`, `Port *int64`. -/
structure Endpoint where
  Address : Option String
  Port : Option Int
  deriving DecidableEq, Repr

/-- The `rds.DBSubnetGroup` of an instance: `VpcId *string`. -/
structure DBSubnetGroup where
  VpcId : Option String
  deriving DecidableEq, Repr

/-- The `rds.DBInstance` fields read by `ParseAwsRdsInstance`; every one is a pointer. -/
structure DBInstance where
  Endpoint : Option Endpoint
  DBInstanceIdentifier : Option String
  DBSubnetGroup : Option DBSubnetGroup
  Engine : Option String
  ReadReplicaSourceDBInstanceIdentifier : Option String
  DBClusterIdentifier : Option String
  deriving DecidableEq, Repr

/-! ## The credentials store -/

/-- Modelled from the spec: the credentials store, the `*ini.File` of the library
`gopkg.in/ini.v1`, whose code is not in this repository. Following §6 it is a key-value
structure partitioned into named sections (the global section has the empty name, as
in `iniConfig.Section("")`), with a test of section existence and string / int / bool
typed lookups that take a caller-supplied default. A lookup is `none` when the
section or the key is absent. -/
structure IniFile where
  /-- Whether `GetSection(name)` returns a nil error. -/
  hasSection : String → Bool
  /-- The string value of `Section(sec).Key(key)`. -/
  str : String → String → Option String
  /-- The int64 value of `Section(sec).Key(key)`. -/
  int64 : String → String → Option Int
  /-- The boolean value of `Section(sec).Key(key)`. -/
  bool : String → String → Option Bool

/-- The call `iniConfig.Section(sec).Key(key).MustString(dflt)`. -/
def IniFile.MustString (iniConfig : IniFile) (sec key dflt : String) : String :=
  (iniConfig.str sec key).getD dflt

/-- The call `iniConfig.Section(sec).Key(key).MustInt64(dflt)`. -/
def IniFile.MustInt64 (iniConfig : IniFile) (sec key : String) (dflt : Int) : Int :=
  (iniConfig.int64 sec key).getD dflt

/-- The call `iniConfig.Section(sec).Key(key).MustBool(dflt)`. -/
def IniFile.MustBool (iniConfig : IniFile) (sec key : String) (dflt : Bool) : Bool :=
  (iniConfig.bool sec key).getD dflt

/-! ## Instance normalizer -/

/-- The Go function `ParseAwsRdsInstance` (main.go 73-109). The four unconditional
dereferences come first, in source order, then the switch on `*instance.Engine`.
On the error return the partially filled `config` that Go hands back next to the
error is dropped: the only caller ignores it. -/
def ParseAwsRdsInstance (dbInstance : DBInstance) : Except Failure DatabaseState := do
  let config := DatabaseState.zero
  let endpoint ← deref dbInstance.Endpoint
  let address ← deref endpoint.Address
  let config := { config with Hostname := address }
  let identifier ← deref dbInstance.DBInstanceIdentifier
  let config := { config with Identifier := identifier }
  let subnetGroup ← deref dbInstance.DBSubnetGroup
  let vpcId ← deref subnetGroup.VpcId
  let config := { config with VPC := vpcId }
  let port ← deref endpoint.Port
  let config := { config with Port := port }
  let engine ← deref dbInstance.Engine
  if engine = "mysql" then
    let config := { config with Engine := "mysql" }
    match dbInstance.ReadReplicaSourceDBInstanceIdentifier with
    | some source =>
      .ok { config with Cluster := source, MySQLReplication := true }
    | none =>
      .ok { config with Cluster := identifier, MySQLReplication := false }
  else if engine = "aurora-mysql" then
    let config := { config with Engine := "aurora" }
    let cluster ← deref dbInstance.DBClusterIdentifier
    .ok { config with Cluster := cluster }
  else if engine = "aurora" then
    let config := { config with Engine := "aurora" }
    let cluster ← deref dbInstance.DBClusterIdentifier
    .ok { config with Cluster := cluster }
  else
    .error (.error "Unknown RDS engine type")

/-! ## Cluster membership lookup -/

/-- The table of Unicode simple case folding behind the standard-library call
`strings.EqualFold`, which is not in this repository and is a parameter of the
embedding: `fold c` is the representative of the characters that are equivalent to `c`
under simple case folding (the orbit that `unicode.SimpleFold` walks). What is fixed of
the table is its ASCII part: the letters `A`-`Z` fold to `a`-`z`, and every other
ASCII character folds to itself. -/
structure CaseFolding where
  /-- The representative of a character under simple case folding. -/
  fold : Char → Char
  /-- On ASCII the folding lower-cases the letters and changes nothing else. -/
  ascii : ∀ c : Char, c.toNat < 128 → fold c = c.toLower

/-- One folding with the fixed ASCII part: it folds the ASCII letters and nothing else. -/
def asciiFolding : CaseFolding :=
  { fold := Char.toLower, ascii := fun _ _ => rfl }

/-- The standard-library call `strings.EqualFold(s, t)`: whether the two strings are
equal under simple case folding, that is, have as many characters and, position by
position, characters with the same folding. -/
def EqualFold (folding : CaseFolding) (s t : String) : Bool :=
  s.toList.map folding.fold == t.toList.map folding.fold

/-- Equality of two identifiers under case-insensitive comparison, in the words of the
spec: the two have as many characters and, position by position, their characters are
the same once case is folded. -/
def caseInsensitiveEq (folding : CaseFolding) (s t : String) : Prop :=
  List.Forall₂ (fun a b => folding.fold a = folding.fold b) s.toList t.toList

/-- The Go function `FindAuroraMember` (main.go 111-120): the first member, in list
order, whose instance identifier folds to the search identifier. -/
def FindAuroraMember (folding : CaseFolding) :
    List ClusterMember → String → Except Failure ClusterMember
  | [], _ => .error (.error "Aurora instance can\x27t be found")
  | member :: members, searchIdentifer =>
    if EqualFold folding member.InstanceIdentifier searchIdentifer then
      .ok member
    else
      FindAuroraMember folding members searchIdentifer

/-! ## Location and credential filters -/

/-- The Go function `ClusterVPCFilter` (main.go 149-157). -/
def ClusterVPCFilter (rdsConfigs : List DatabaseState) (vpc : String) : List DatabaseState :=
  rdsConfigs.foldl
    (fun filteredConfigs config =>
      if config.VPC = vpc then filteredConfigs ++ [config] else filteredConfigs)
    []

/-- The Go function `ClusterIniFilter` (main.go 159-169): a record is appended when
`iniConfig.GetSection(config.Cluster)` returns a nil error. -/
def ClusterIniFilter (rdsConfigs : List DatabaseState) (iniConfig : IniFile) :
    List DatabaseState :=
  rdsConfigs.foldl
    (fun filteredConfigs config =>
      if iniConfig.hasSection config.Cluster = true then filteredConfigs ++ [config]
      else filteredConfigs)
    []

/-! ## Config synthesizer -/

/-- The package-level variable `logger` (main.go 25). No statement assigns it: `main`
declares a local variable of the same name with `:=` (main.go 248), so the global
keeps its zero value, the nil pointer. -/
def logger : Option Unit := none

/-- The call `l.Println(..)` on a `*log.Logger`: it dereferences `l`. -/
def Println (l : Option Unit) : Except Failure Unit := deref l

/-- One iteration of the loop of `CreateDatadogConfigs` (main.go 176-223): the
descriptor of `rdsConfig`, or the failure that ends the run. -/
def CreateDatadogConfigs.iteration (folding : CaseFolding)
    (clusterMembers : List ClusterMember)
    (iniConfig : IniFile) (default_username : String) (rdsConfig : DatabaseState) :
    Except Failure DatadogConfig := do
  let ddConfig := DatadogConfig.zero
  -- Main config stuff
  let ddConfig := { ddConfig with Server := rdsConfig.Hostname }
  let ddConfig := { ddConfig with Port := rdsConfig.Port }
  let ddConfig :=
    { ddConfig with ConnectTimeout := iniConfig.MustInt64 rdsConfig.Cluster "connect_timeout" 1 }
  let ddConfig :=
    { ddConfig with User := iniConfig.MustString rdsConfig.Cluster "user" default_username }
  let ddConfig :=
    { ddConfig with Pass := iniConfig.MustString rdsConfig.Cluster "password" "dummy_password" }
  -- Clustering tag can be overridden
  let clusterTag := iniConfig.MustString rdsConfig.Cluster "rename_cluster" rdsConfig.Cluster
  let instanceTag :=
    iniConfig.MustString rdsConfig.Cluster ("rename_instance_" ++ rdsConfig.Identifier)
      rdsConfig.Identifier
  -- Set DD Tags
  let tags : List String := []
  let tags := tags ++ ["dbinstanceidentifier:" ++ instanceTag]
  let tags := tags ++ ["database_group:" ++ clusterTag]
  let ddConfig := { ddConfig with Tags := tags }
  -- Consistent stuff
  let ddConfig := { ddConfig with Options := { ddConfig.Options with SchemaSize := true } }
  let ddConfig := { ddConfig with Options := { ddConfig.Options with ProcessList := true } }
  let ddConfig := { ddConfig with Options := { ddConfig.Options with ExtraStatus := true } }
  let ddConfig :=
    { ddConfig with Options := { ddConfig.Options with
        ExtraPerformance := iniConfig.MustBool rdsConfig.Cluster "extra_performance" false } }
  if rdsConfig.Engine = "aurora" then
    -- Find what kind of member we are, and disable some stuff if necessary
    let ddConfig := { ddConfig with Options := { ddConfig.Options with Replication := false } }
    match FindAuroraMember folding clusterMembers rdsConfig.Identifier with
    | .ok clusterMember =>
      let ddConfig :=
        { ddConfig with Options := { ddConfig.Options with
            DisableInnoDb := !clusterMember.IsWriter } }
      let ddConfig :=
        { ddConfig with Options := { ddConfig.Options with
            ExtraInnoDb := clusterMember.IsWriter } }
      .ok ddConfig
    | .error _ =>
      .error (.panic ("Can\x27t find Aurora cluster member: " ++ rdsConfig.Identifier))
  else if rdsConfig.Engine = "mysql" then
    -- Always enable
    let ddConfig := { ddConfig with Options := { ddConfig.Options with DisableInnoDb := false } }
    let ddConfig := { ddConfig with Options := { ddConfig.Options with ExtraInnoDb := true } }
    -- Depends if we are a replica
    let ddConfig :=
      { ddConfig with Options := { ddConfig.Options with
          Replication := rdsConfig.MySQLReplication } }
    .ok ddConfig
  else do
    Println logger
    .error (.exit 22)

/-- The loop of `CreateDatadogConfigs` (main.go 175-226) over the records still to
visit, carrying the slice `ddConfigs` built so far. -/
def CreateDatadogConfigs.loop (folding : CaseFolding) (clusterMembers : List ClusterMember)
    (iniConfig : IniFile) (default_username : String) :
    List DatabaseState → List DatadogConfig → Except Failure (List DatadogConfig)
  | [], ddConfigs => .ok ddConfigs
  | rdsConfig :: rdsConfigs, ddConfigs =>
    match CreateDatadogConfigs.iteration folding clusterMembers iniConfig default_username
        rdsConfig with
    | .ok ddConfig =>
      CreateDatadogConfigs.loop folding clusterMembers iniConfig default_username rdsConfigs
        (ddConfigs ++ [ddConfig])
    | .error failure => .error failure

/-- The Go function `CreateDatadogConfigs` (main.go 171-228). A panic or a process
exit inside the loop ends the run with no descriptor list. -/
def CreateDatadogConfigs (folding : CaseFolding) (rdsConfigs : List DatabaseState)
    (clusterMembers : List ClusterMember) (iniConfig : IniFile) :
    Except Failure (List DatadogConfig) :=
  let default_username := iniConfig.MustString "" "user" "dummy_username"
  CreateDatadogConfigs.loop folding clusterMembers iniConfig default_username rdsConfigs []

/-- The descriptor the loop of `CreateDatadogConfigs` builds for `rdsConfig` once the
three engine-dependent options are decided: every other field as the loop body sets it
before the switch on the engine. -/
def CreateDatadogConfigs.descriptor (iniConfig : IniFile) (default_username : String)
    (rdsConfig : DatabaseState) (replication extraInnoDb disableInnoDb : Bool) : DatadogConfig :=
  { Server := rdsConfig.Hostname,
    User := iniConfig.MustString rdsConfig.Cluster "user" default_username,
    Pass := iniConfig.MustString rdsConfig.Cluster "password" "dummy_password",
    Port := rdsConfig.Port,
    ConnectTimeout := iniConfig.MustInt64 rdsConfig.Cluster "connect_timeout" 1,
    Tags :=
      [ "dbinstanceidentifier:" ++
          iniConfig.MustString rdsConfig.Cluster ("rename_instance_" ++ rdsConfig.Identifier)
            rdsConfig.Identifier,
        "database_group:" ++
          iniConfig.MustString rdsConfig.Cluster "rename_cluster" rdsConfig.Cluster ],
    Options :=
      { Replication := replication, ExtraStatus := true, ExtraInnoDb := extraInnoDb,
        DisableInnoDb := disableInnoDb,
        ExtraPerformance := iniConfig.MustBool rdsConfig.Cluster "extra_performance" false,
        SchemaSize := true, ProcessList := true } }

/-- A failure that ends the whole run: a panic or a process exit, as opposed to an
error value returned to the caller. -/
def Failure.isFatal : Failure → Bool
  | .error _ => false
  | .panic _ => true
  | .exit _ => true

/-! ## Cluster membership resolver -/

/-- The `rds.DBClusterMember` fields read by `ParseAwsClusterMembers`, both pointers. -/
structure DBClusterMember where
  DBInstanceIdentifier : Option String
  IsClusterWriter : Option Bool
  deriving DecidableEq, Repr

/-- The `rds.DBCluster` fields read by `ParseAwsClusterMembers`. -/
structure DBCluster where
  DBClusterIdentifier : Option String
  DBClusterMembers : List DBClusterMember
  deriving DecidableEq, Repr

/-- The loop of `ParseAwsClusterMembers` (main.go 125-131) over the members still to
visit, carrying the slice `clusterMembers` built so far. The three dereferences of one
iteration are in source order. -/
def ParseAwsClusterMembers.loop (clusterResponse : DBCluster) :
    List DBClusterMember → List ClusterMember → Except Failure (List ClusterMember)
  | [], clusterMembers => .ok clusterMembers
  | responseMember :: responseMembers, clusterMembers => do
    let cluster ← deref clusterResponse.DBClusterIdentifier
    let instanceIdentifier ← deref responseMember.DBInstanceIdentifier
    let isWriter ← deref responseMember.IsClusterWriter
    let member : ClusterMember :=
      { Cluster := cluster, InstanceIdentifier := instanceIdentifier, IsWriter := isWriter }
    ParseAwsClusterMembers.loop clusterResponse responseMembers (clusterMembers ++ [member])

/-- The Go function `ParseAwsClusterMembers` (main.go 122-133). -/
def ParseAwsClusterMembers (clusterResponse : DBCluster) : Except Failure (List ClusterMember) :=
  ParseAwsClusterMembers.loop clusterResponse clusterResponse.DBClusterMembers []

/-! ## The pipeline of `main` -/

/-- The loop of `main` over the described clusters (main.go 342-350): the parsed members
of each cluster are appended to the global list; an error value from
`ParseAwsClusterMembers` ends the process with `os.Exit(10)`. -/
def main.collectClusterMembers :
    List DBCluster → List ClusterMember → Except Failure (List ClusterMember)
  | [], clusterMembers => .ok clusterMembers
  | responseCluster :: responseClusters, clusterMembers =>
    match ParseAwsClusterMembers responseCluster with
    | .ok parsedMembers =>
      main.collectClusterMembers responseClusters (clusterMembers ++ parsedMembers)
    | .error (.error _) => .error (.exit 10)
    | .error failure => .error failure

/-- The loop of `main` over the described instances (main.go 356-364): each parsed
record is appended to `databaseStates`; an error value from `ParseAwsRdsInstance` ends
the process with `os.Exit(11)`, and a panic inside it ends the run as it is. -/
def main.parseInstances :
    List DBInstance → List DatabaseState → Except Failure (List DatabaseState)
  | [], databaseStates => .ok databaseStates
  | instanceResponse :: instanceResponses, databaseStates =>
    match ParseAwsRdsInstance instanceResponse with
    | .ok instanceState =>
      main.parseInstances instanceResponses (databaseStates ++ [instanceState])
    | .error (.error _) => .error (.exit 11)
    | .error failure => .error failure

/-- The Go comparison `s < t` of two strings: lexical, byte by byte, which on UTF-8
text is the lexical order of the characters, the order `<` of `String`. -/
def stringLess (s t : String) : Bool :=
  decide (s.toList < t.toList)

/-- The closure `less` handed to `sort.Slice` (main.go 366-372), on the two records at
the compared indices. -/
def main.less (a b : DatabaseState) : Bool :=
  if a.Cluster = b.Cluster then
    stringLess a.Identifier b.Identifier
  else
    stringLess a.Cluster b.Cluster

/-- The contract of the standard-library call `sort.Slice(databaseStates, less)`, whose
code is not in this repository and whose algorithm is not fixed: the slice is
rearranged (a permutation), and afterwards no record is `less` than a record before it.
The sort is not stable. -/
def SortsSlice (sortSlice : List DatabaseState → List DatabaseState) : Prop :=
  ∀ databaseStates,
    (sortSlice databaseStates).Perm databaseStates ∧
    (sortSlice databaseStates).Pairwise (fun a b => main.less b a = false)

/-- One function that meets the contract `SortsSlice`: an insertion sort. -/
def insertionSortSlice (databaseStates : List DatabaseState) : List DatabaseState :=
  databaseStates.insertionSort (fun a b => main.less b a = false)

/-- The part of `main` from the parsing of the instances to the list handed to the
serializer (main.go 356-393): parse every instance, sort, VPC filter, credential
filter, synthesize. The sort is the parameter `sortSlice`, the case folding of the
member lookup the parameter `folding`. -/
def main.pipeline (folding : CaseFolding)
    (sortSlice : List DatabaseState → List DatabaseState)
    (DBInstances : List DBInstance) (clusterMembers : List ClusterMember)
    (filtered_vpc : String) (local_ini : IniFile) : Except Failure (List DatadogConfig) := do
  let databaseStates ← main.parseInstances DBInstances []
  -- Sort configs by cluster, easier for humans
  let databaseStates := sortSlice databaseStates
  let databaseStates := ClusterVPCFilter databaseStates filtered_vpc
  let databaseStates := ClusterIniFilter databaseStates local_ini
  CreateDatadogConfigs folding databaseStates clusterMembers local_ini

/-- The list `main` hands to `CreateDatadogConfigs` (main.go 366-386), from the parsed
records: sorted, then filtered by VPC, then by credentials. -/
def main.filtered (sortSlice : List DatabaseState → List DatabaseState)
    (databaseStates : List DatabaseState) (filtered_vpc : String) (local_ini : IniFile) :
    List DatabaseState :=
  ClusterIniFilter (ClusterVPCFilter (sortSlice databaseStates) filtered_vpc) local_ini

/-- The part of `main` from the cluster descriptions on (main.go 342-393): collect the
members of every cluster, then run the pipeline over the instances. -/
def main.run (folding : CaseFolding) (sortSlice : List DatabaseState → List DatabaseState)
    (DBClusters : List DBCluster) (DBInstances : List DBInstance)
    (filtered_vpc : String) (local_ini : IniFile) : Except Failure (List DatadogConfig) := do
  let clusterMembers ← main.collectClusterMembers DBClusters []
  main.pipeline folding sortSlice DBInstances clusterMembers filtered_vpc local_ini

/-- The order the sort aims at: ascending by `Cluster`, then by `Identifier`, both in
the lexical order of strings. -/
def ascending (a b : DatabaseState) : Prop :=
  a.Cluster < b.Cluster ∨ (a.Cluster = b.Cluster ∧ a.Identifier ≤ b.Identifier)

/-- The sort key of a record: its `Cluster`, then its `Identifier`. -/
def sortKey (a : DatabaseState) : String × String := (a.Cluster, a.Identifier)

/-! ## Sample inputs -/

/-- A raw instance whose hostname, port, VPC id, instance identifier and engine are
present (non-nil) with the given values; the replication source and the cluster
identifier are the given pointers, nil or not. -/
def DBInstance.present (address : String) (port : Int) (identifier vpcId engine : String)
    (source cluster : Option String) : DBInstance :=
  { Endpoint := some { Address := some address, Port := some port },
    DBInstanceIdentifier := some identifier,
    DBSubnetGroup := some { VpcId := some vpcId },
    Engine := some engine,
    ReadReplicaSourceDBInstanceIdentifier := source,
    DBClusterIdentifier := cluster }

/-- The instance `db-1` of VPC `vpc-abc` with the given engine, replication source and
cluster identifier. -/
def sampleInstance (engine : String) (source cluster : Option String) : DBInstance :=
  DBInstance.present "db-1.example.com" 3306 "db-1" "vpc-abc" engine source cluster

/-- A normalized record with the given engine, cluster, identifier and VPC. -/
def sampleState (engine cluster identifier vpc : String) (replication : Bool) : DatabaseState :=
  { Engine := engine, Cluster := cluster, Identifier := identifier,
    Hostname := identifier ++ ".example.com", Port := 3306, VPC := vpc,
    Username := "", Password := "", MySQLReplication := replication,
    AuroraReadReplica := false }

/-- A credentials store with the single named section `prod-cluster` (and the global
section), holding `user=dd_user`. -/
def sampleIni : IniFile :=
  { hasSection := fun name => name == "prod-cluster" || name == "",
    str := fun sec key => if sec = "prod-cluster" ∧ key = "user" then some "dd_user" else none,
    int64 := fun _ _ => none,
    bool := fun _ _ => none }

/-- The members of the cluster `prod-cluster`: writer `prod-1`, reader `prod-2`. -/
def sampleMembers : List ClusterMember :=
  [ { Cluster := "prod-cluster", InstanceIdentifier := "prod-1", IsWriter := true },
    { Cluster := "prod-cluster", InstanceIdentifier := "prod-2", IsWriter := false } ]

/-- A raw cluster whose identifier and whose members' identifiers and writer flags are
present (non-nil) with the given values. -/
def DBCluster.present (cluster : String) (members : List (String × Bool)) : DBCluster :=
  { DBClusterIdentifier := some cluster,
    DBClusterMembers :=
      members.map fun member =>
        { DBInstanceIdentifier := some member.1, IsClusterWriter := some member.2 } }

/-- The Aurora cluster `prod-cluster` with writer `prod-1` and reader `prod-2`. -/
def sampleCluster : DBCluster :=
  DBCluster.present "prod-cluster" [("prod-1", true), ("prod-2", false)]

/-- The Aurora instance `identifier` of the cluster `prod-cluster` in VPC `vpc-abc`. -/
def sampleAurora (identifier : String) : DBInstance :=
  DBInstance.present (identifier ++ ".example.com") 3306 identifier "vpc-abc" "aurora" none
    (some "prod-cluster")

/-- The normalized record of the Aurora instance `identifier` of the cluster
`prod-cluster` in VPC `vpc-abc`, with the given hostname and port. -/
def prodState (address : String) (port : Int) (identifier : String) : DatabaseState :=
  { Engine := "aurora", Cluster := "prod-cluster", Identifier := identifier,
    Hostname := address, Port := port, VPC := "vpc-abc", Username := "", Password := "",
    MySQLReplication := false, AuroraReadReplica := false }

end RdsDatadogConfig

namespace RdsDatadogConfig

/-! ## Instance normalizer: helper lemmas -/

/-- The result of `ParseAwsRdsInstance` on an instance with the unconditional fields
present, by cases on the engine string. -/
theorem ParseAwsRdsInstance_present (address : String) (port : Int)
    (identifier vpcId engine : String) (source cluster : Option String) :
    ParseAwsRdsInstance (DBInstance.present address port identifier vpcId engine source cluster) =
      if engine = "mysql" then
        match source with
        | some s =>
          .ok { Engine := "mysql", Cluster := s, Identifier := identifier, Hostname := address,
                Port := port, VPC := vpcId, Username := "", Password := "",
                MySQLReplication := true, AuroraReadReplica := false }
        | none =>
          .ok { Engine := "mysql", Cluster := identifier, Identifier := identifier,
                Hostname := address, Port := port, VPC := vpcId, Username := "",
                Password := "", MySQLReplication := false, AuroraReadReplica := false }
      else if engine = "aurora-mysql" ∨ engine = "aurora" then
        match cluster with
        | some c =>
          .ok { Engine := "aurora", Cluster := c, Identifier := identifier, Hostname := address,
                Port := port, VPC := vpcId, Username := "", Password := "",
                MySQLReplication := false, AuroraReadReplica := false }
        | none => .error (.panic nilDereference)
      else .error (.error "Unknown RDS engine type") := by
  unfold ParseAwsRdsInstance DBInstance.present
  simp only [deref, bind, Except.bind, DatabaseState.zero]
  by_cases h1 : engine = "mysql"
  · cases source <;> simp [h1]
  · by_cases h2 : engine = "aurora-mysql"
    · cases cluster <;> simp [h2]
    · by_cases h3 : engine = "aurora"
      · cases cluster <;> simp [h3]
      · simp [h1, h2, h3]

/-! ## Instance normalizer: cluster derivation and engine gate -/

/-- C1, as stated, fails: a `mysql` instance whose replication-source pointer is set and
points to the empty string has an empty replication source, yet the record has the
empty `Cluster`, not the own identifier `db-1`, and `MySQLReplication == true`. -/
theorem ParseAwsRdsInstance_mysql_empty_source_counterexample :
    (sampleInstance "mysql" (some "") none).Engine = some "mysql" ∧
    (sampleInstance "mysql" (some "") none).DBInstanceIdentifier = some "db-1" ∧
    (sampleInstance "mysql" (some "") none).ReadReplicaSourceDBInstanceIdentifier = some "" ∧
    ParseAwsRdsInstance (sampleInstance "mysql" (some "") none) =
      .ok { Engine := "mysql", Cluster := "", Identifier := "db-1",
            Hostname := "db-1.example.com", Port := 3306, VPC := "vpc-abc", Username := "",
            Password := "", MySQLReplication := true, AuroraReadReplica := false } ∧
    ¬ ∃ config, ParseAwsRdsInstance (sampleInstance "mysql" (some "") none) = .ok config ∧
        config.Cluster = "db-1" ∧ config.MySQLReplication = false := by
  refine ⟨rfl, rfl, rfl, ?_, ?_⟩
  · simp [sampleInstance, ParseAwsRdsInstance_present]
  · simp [sampleInstance, ParseAwsRdsInstance_present]

/-- C1, amended: for every raw instance whose engine is exactly `mysql` (hostname, port,
VPC id and instance identifier present), a replication-source pointer that is set, to
any string `s` (the empty one included), gives the record with `Cluster == s` and
`MySQLReplication == true`, and a nil replication-source pointer gives the record with
`Cluster ==` the own identifier and `MySQLReplication == false`; the other fields are
the copied hostname, port, VPC id and identifier. -/
theorem ParseAwsRdsInstance_mysql_cluster (address : String) (port : Int)
    (identifier vpcId s : String) (cluster : Option String) :
    ParseAwsRdsInstance (DBInstance.present address port identifier vpcId "mysql" (some s) cluster) =
        .ok { Engine := "mysql", Cluster := s, Identifier := identifier, Hostname := address,
              Port := port, VPC := vpcId, Username := "", Password := "",
              MySQLReplication := true, AuroraReadReplica := false } ∧
    ParseAwsRdsInstance (DBInstance.present address port identifier vpcId "mysql" none cluster) =
        .ok { Engine := "mysql", Cluster := identifier, Identifier := identifier,
              Hostname := address, Port := port, VPC := vpcId, Username := "", Password := "",
              MySQLReplication := false, AuroraReadReplica := false } := by
  constructor <;> simp [ParseAwsRdsInstance_present]

/-- C2, as stated, fails: an instance with hostname, port, VPC id, instance identifier
and engine present, engine `aurora`, and a nil cluster-identifier pointer has a
supported engine, yet `ParseAwsRdsInstance` does not succeed: it panics on the nil
dereference. -/
theorem ParseAwsRdsInstance_nil_cluster_counterexample :
    ParseAwsRdsInstance (sampleInstance "aurora" none none) = .error (.panic nilDereference) ∧
    ¬ ((∃ config, ParseAwsRdsInstance (sampleInstance "aurora" none none) = .ok config) ↔
        ("aurora" = "mysql" ∨ "aurora" = "aurora" ∨ "aurora" = "aurora-mysql")) := by
  constructor <;> simp [sampleInstance, ParseAwsRdsInstance_present]

/-- C2, amended: for every raw instance with hostname, port, VPC id, instance identifier
and engine present, and with the cluster identifier present when the engine is `aurora`
or `aurora-mysql`, `ParseAwsRdsInstance` succeeds if and only if the engine string is
`mysql`, `aurora` or `aurora-mysql`; on success the record's `Engine` is exactly `mysql`
or `aurora`; for every other engine string it returns the error
`Unknown RDS engine type`. -/
theorem ParseAwsRdsInstance_engine_gate (address : String) (port : Int)
    (identifier vpcId engine : String) (source cluster : Option String)
    (hcluster : engine = "aurora" ∨ engine = "aurora-mysql" → cluster ≠ none) :
    ((∃ config, ParseAwsRdsInstance
          (DBInstance.present address port identifier vpcId engine source cluster) = .ok config) ↔
        (engine = "mysql" ∨ engine = "aurora" ∨ engine = "aurora-mysql")) ∧
    (∀ config, ParseAwsRdsInstance
          (DBInstance.present address port identifier vpcId engine source cluster) = .ok config →
        config.Engine = "mysql" ∨ config.Engine = "aurora") ∧
    (¬ (engine = "mysql" ∨ engine = "aurora" ∨ engine = "aurora-mysql") →
        ParseAwsRdsInstance
          (DBInstance.present address port identifier vpcId engine source cluster) =
          .error (.error "Unknown RDS engine type")) := by
  rw [ParseAwsRdsInstance_present]
  by_cases h1 : engine = "mysql"
  · subst h1
    cases source <;> simp
  · by_cases h2 : engine = "aurora-mysql" ∨ engine = "aurora"
    · obtain ⟨c, rfl⟩ := Option.ne_none_iff_exists'.mp (hcluster h2.symm)
      rcases h2 with h2 | h2 <;> subst h2 <;> simp
    · have h3 : engine ≠ "aurora-mysql" := fun h => h2 (Or.inl h)
      have h4 : engine ≠ "aurora" := fun h => h2 (Or.inr h)
      simp [h1, h3, h4]

/-- The engine gate at the instance `db-1` of engine `aurora-mysql` in the cluster
`prod-cluster`: the cluster identifier is present and the parse succeeds. -/
theorem ParseAwsRdsInstance_engine_gate_witness :
    (("aurora-mysql" = "aurora" ∨ "aurora-mysql" = "aurora-mysql") →
        (some "prod-cluster" : Option String) ≠ none) ∧
    ∃ config, ParseAwsRdsInstance
        (DBInstance.present "db-1.example.com" 3306 "db-1" "vpc-abc" "aurora-mysql" none
          (some "prod-cluster")) = .ok config :=
  ⟨fun _ => by simp,
   (ParseAwsRdsInstance_engine_gate "db-1.example.com" 3306 "db-1" "vpc-abc" "aurora-mysql" none
      (some "prod-cluster") (fun _ => by simp)).1.mpr (Or.inr (Or.inr rfl))⟩

/-- C3, as stated, fails: on the raw instance `db-1` of engine `aurora` whose cluster
identifier `prod-cluster` is present and whose endpoint pointer is nil,
`ParseAwsRdsInstance` returns no record: it panics on the nil dereference of the
endpoint. -/
theorem ParseAwsRdsInstance_nil_endpoint_counterexample :
    ParseAwsRdsInstance
        { Endpoint := none,
          DBInstanceIdentifier := some "db-1",
          DBSubnetGroup := some { VpcId := some "vpc-abc" },
          Engine := some "aurora",
          ReadReplicaSourceDBInstanceIdentifier := none,
          DBClusterIdentifier := some "prod-cluster" } =
      .error (.panic nilDereference) ∧
    ¬ ∃ config,
        ParseAwsRdsInstance
          { Endpoint := none,
            DBInstanceIdentifier := some "db-1",
            DBSubnetGroup := some { VpcId := some "vpc-abc" },
            Engine := some "aurora",
            ReadReplicaSourceDBInstanceIdentifier := none,
            DBClusterIdentifier := some "prod-cluster" } = .ok config := by
  constructor
  · rfl
  · rintro ⟨config, h⟩
    have hpanic : ParseAwsRdsInstance
        { Endpoint := none,
          DBInstanceIdentifier := some "db-1",
          DBSubnetGroup := some { VpcId := some "vpc-abc" },
          Engine := some "aurora",
          ReadReplicaSourceDBInstanceIdentifier := none,
          DBClusterIdentifier := some "prod-cluster" } =
        .error (.panic nilDereference) := rfl
    rw [hpanic] at h
    simp at h

/-- C3, amended: for every raw instance whose engine is `aurora` or `aurora-mysql`, with
hostname, port, VPC id, instance identifier and cluster identifier present,
`ParseAwsRdsInstance` returns the record with `Engine == aurora`, `Cluster ==` the
cluster identifier and `MySQLReplication == false`, whatever the own identifier and the
replication-source pointer; `Hostname`, `Port`, `VPC` and `Identifier` are copied
unchanged from the raw description. -/
theorem ParseAwsRdsInstance_aurora (address : String) (port : Int)
    (identifier vpcId engine c : String) (source : Option String)
    (hengine : engine = "aurora" ∨ engine = "aurora-mysql") :
    ParseAwsRdsInstance (DBInstance.present address port identifier vpcId engine source (some c)) =
      .ok { Engine := "aurora", Cluster := c, Identifier := identifier, Hostname := address,
            Port := port, VPC := vpcId, Username := "", Password := "",
            MySQLReplication := false, AuroraReadReplica := false } := by
  rw [ParseAwsRdsInstance_present]
  rcases hengine with h | h <;> subst h <;> simp

/-- The Aurora rule at the instance `db-1` of engine `aurora` that also carries a
replication source: the cluster is `prod-cluster` and the replication flag is off. -/
theorem ParseAwsRdsInstance_aurora_witness :
    ("aurora" = "aurora" ∨ "aurora" = "aurora-mysql") ∧
    ParseAwsRdsInstance (DBInstance.present "db-1.example.com" 3306 "db-1" "vpc-abc" "aurora"
        (some "db-0") (some "prod-cluster")) =
      .ok { Engine := "aurora", Cluster := "prod-cluster", Identifier := "db-1",
            Hostname := "db-1.example.com", Port := 3306, VPC := "vpc-abc", Username := "",
            Password := "", MySQLReplication := false, AuroraReadReplica := false } :=
  ⟨Or.inl rfl,
   ParseAwsRdsInstance_aurora "db-1.example.com" 3306 "db-1" "vpc-abc" "aurora" "prod-cluster"
     (some "db-0") (Or.inl rfl)⟩

/-! ## Config synthesizer: helper lemmas -/

/-- The library test of equality under case folding is the case-insensitive equality of
the spec. -/
theorem EqualFold_iff (folding : CaseFolding) (s t : String) :
    EqualFold folding s t = true ↔ caseInsensitiveEq folding s t := by
  unfold EqualFold caseInsensitiveEq
  rw [beq_iff_eq]
  generalize s.toList = xs
  generalize t.toList = ys
  induction xs generalizing ys with
  | nil => cases ys <;> simp
  | cons x xs ih => cases ys <;> simp [ih]

/-- The library test fails exactly when the two strings are not equal under
case-insensitive comparison. -/
theorem EqualFold_eq_false_iff (folding : CaseFolding) (s t : String) :
    EqualFold folding s t = false ↔ ¬ caseInsensitiveEq folding s t := by
  rw [← EqualFold_iff, Bool.not_eq_true]

/-- On strings of ASCII characters every folding decides as the folding of the ASCII
letters does. -/
theorem EqualFold_ascii (folding : CaseFolding) (s t : String)
    (hs : ∀ c ∈ s.toList, c.toNat < 128) (ht : ∀ c ∈ t.toList, c.toNat < 128) :
    EqualFold folding s t = EqualFold asciiFolding s t := by
  unfold EqualFold asciiFolding
  have hmap : ∀ xs : List Char, (∀ c ∈ xs, c.toNat < 128) →
      xs.map folding.fold = xs.map Char.toLower :=
    fun xs hxs => List.map_congr_left (fun c hc => folding.ascii c (hxs c hc))
  rw [hmap _ hs, hmap _ ht]

/-- On strings of ASCII characters, equality under case-insensitive comparison is
equality of the two strings with their letters lower-cased. -/
theorem caseInsensitiveEq_ascii (folding : CaseFolding) (s t : String)
    (hs : ∀ c ∈ s.toList, c.toNat < 128) (ht : ∀ c ∈ t.toList, c.toNat < 128) :
    caseInsensitiveEq folding s t ↔ s.toList.map Char.toLower = t.toList.map Char.toLower := by
  rw [← EqualFold_iff, EqualFold_ascii folding s t hs ht]
  unfold EqualFold asciiFolding
  rw [beq_iff_eq]

/-- Outside ASCII the comparison follows the table: under a folding that identifies `É`
with `é`, as the Unicode table does, `db-é` and `DB-É` are equal. -/
theorem caseInsensitiveEq_accent (folding : CaseFolding)
    (haccent : folding.fold 'É' = folding.fold 'é') :
    caseInsensitiveEq folding "db-é" "DB-É" := by
  have hd : folding.fold 'd' = folding.fold 'D' := by
    rw [folding.ascii 'd' (by decide), folding.ascii 'D' (by decide)]
    decide
  have hb : folding.fold 'b' = folding.fold 'B' := by
    rw [folding.ascii 'b' (by decide), folding.ascii 'B' (by decide)]
    decide
  show List.Forall₂ _ ['d', 'b', '-', 'é'] ['D', 'B', '-', 'É']
  exact .cons hd (.cons hb (.cons rfl (.cons haccent.symm .nil)))

/-- On ASCII identifiers the lookup under any folding is the lookup under the folding of
the ASCII letters. -/
theorem FindAuroraMember_ascii (folding : CaseFolding) (members : List ClusterMember)
    (searchIdentifer : String)
    (hmembers : ∀ member ∈ members, ∀ c ∈ member.InstanceIdentifier.toList, c.toNat < 128)
    (hsearch : ∀ c ∈ searchIdentifer.toList, c.toNat < 128) :
    FindAuroraMember folding members searchIdentifer =
      FindAuroraMember asciiFolding members searchIdentifer := by
  induction members with
  | nil => rfl
  | cons member members ih =>
    have hhead := EqualFold_ascii folding member.InstanceIdentifier searchIdentifer
      (hmembers member (by simp)) hsearch
    have htail := ih (fun other hother => hmembers other (by simp [hother]))
    simp only [FindAuroraMember, hhead, htail]

/-- The lookup fails exactly when no member folds to the search identifier. -/
theorem FindAuroraMember_error_iff {folding : CaseFolding}
    (members : List ClusterMember) (searchIdentifer : String) :
    (∃ failure, FindAuroraMember folding members searchIdentifer = .error failure) ↔
      ∀ member ∈ members, EqualFold folding member.InstanceIdentifier searchIdentifer = false := by
  induction members with
  | nil => simp [FindAuroraMember]
  | cons member members ih =>
    by_cases h : EqualFold folding member.InstanceIdentifier searchIdentifer = true
    · simp [FindAuroraMember, h]
    · simp only [Bool.not_eq_true] at h
      simp [FindAuroraMember, h, ih]

/-- One loop iteration, by cases on the engine of the record. -/
theorem CreateDatadogConfigs.iteration_eq {folding : CaseFolding}
    (clusterMembers : List ClusterMember)
    (iniConfig : IniFile) (default_username : String) (rdsConfig : DatabaseState) :
    CreateDatadogConfigs.iteration folding clusterMembers iniConfig default_username rdsConfig =
      if rdsConfig.Engine = "aurora" then
        match FindAuroraMember folding clusterMembers rdsConfig.Identifier with
        | .ok clusterMember =>
          .ok (CreateDatadogConfigs.descriptor iniConfig default_username rdsConfig false
                clusterMember.IsWriter (!clusterMember.IsWriter))
        | .error _ =>
          .error (.panic ("Can\x27t find Aurora cluster member: " ++ rdsConfig.Identifier))
      else if rdsConfig.Engine = "mysql" then
        .ok (CreateDatadogConfigs.descriptor iniConfig default_username rdsConfig
              rdsConfig.MySQLReplication true false)
      else .error (.panic nilDereference) := by
  unfold CreateDatadogConfigs.iteration CreateDatadogConfigs.descriptor
  by_cases h1 : rdsConfig.Engine = "aurora"
  · simp only [h1, if_true]
    cases FindAuroraMember folding clusterMembers rdsConfig.Identifier <;>
      simp [DatadogConfig.zero, pure, Except.pure]
  · by_cases h2 : rdsConfig.Engine = "mysql"
    · simp [h2, DatadogConfig.zero, pure, Except.pure]
    · simp [h1, h2, Println, logger, deref, bind, Except.bind]

/-- A failure of one loop iteration is a panic: it ends the run. -/
theorem CreateDatadogConfigs.iteration_error_isFatal {folding : CaseFolding}
    (clusterMembers : List ClusterMember)
    (iniConfig : IniFile) (default_username : String) (rdsConfig : DatabaseState)
    (failure : Failure)
    (h : CreateDatadogConfigs.iteration folding clusterMembers iniConfig default_username rdsConfig =
      .error failure) :
    failure.isFatal = true := by
  rw [CreateDatadogConfigs.iteration_eq] at h
  split_ifs at h
  · split at h
    · simp at h
    · simp only [Except.error.injEq] at h
      subst h; rfl
  · simp only [Except.error.injEq] at h
    subst h; rfl

/-- The loop returns `ddConfigs` extended by one descriptor per remaining record, each
the result of that record's iteration. -/
theorem CreateDatadogConfigs.loop_ok_iff {folding : CaseFolding}
    (clusterMembers : List ClusterMember)
    (iniConfig : IniFile) (default_username : String) (rdsConfigs : List DatabaseState)
    (ddConfigs out : List DatadogConfig) :
    CreateDatadogConfigs.loop folding clusterMembers iniConfig default_username rdsConfigs ddConfigs =
        .ok out ↔
      ∃ added, out = ddConfigs ++ added ∧
        List.Forall₂
          (fun rdsConfig ddConfig =>
            CreateDatadogConfigs.iteration folding clusterMembers iniConfig default_username rdsConfig =
              .ok ddConfig)
          rdsConfigs added := by
  induction rdsConfigs generalizing ddConfigs with
  | nil =>
    simp only [CreateDatadogConfigs.loop, Except.ok.injEq, List.forall₂_nil_left_iff]
    constructor
    · intro h; exact ⟨[], by simp [h], rfl⟩
    · rintro ⟨added, h, rfl⟩; simp [h]
  | cons rdsConfig rdsConfigs ih =>
    simp only [CreateDatadogConfigs.loop]
    cases hit : CreateDatadogConfigs.iteration folding clusterMembers iniConfig default_username
        rdsConfig with
    | error failure =>
      constructor
      · intro h
        simp at h
      · rintro ⟨added, _, hall⟩
        cases hall with
        | cons h _ =>
          rw [hit] at h
          simp at h
    | ok ddConfig =>
      simp only [ih]
      constructor
      · rintro ⟨added, rfl, hall⟩
        exact ⟨ddConfig :: added, by simp, List.Forall₂.cons hit hall⟩
      · rintro ⟨added, rfl, hall⟩
        cases hall with
        | cons h htail =>
          rw [hit] at h
          simp only [Except.ok.injEq] at h
          subst h
          exact ⟨_, by simp, htail⟩

/-- The loop fails exactly when the iteration of some remaining record fails, and then
with a failure that ends the run. -/
theorem CreateDatadogConfigs.loop_error_iff {folding : CaseFolding}
    (clusterMembers : List ClusterMember)
    (iniConfig : IniFile) (default_username : String) (rdsConfigs : List DatabaseState)
    (ddConfigs : List DatadogConfig) :
    (∃ failure, failure.isFatal = true ∧
        CreateDatadogConfigs.loop folding clusterMembers iniConfig default_username rdsConfigs ddConfigs =
          .error failure) ↔
      ∃ rdsConfig ∈ rdsConfigs, ∃ failure,
        CreateDatadogConfigs.iteration folding clusterMembers iniConfig default_username rdsConfig =
          .error failure := by
  induction rdsConfigs generalizing ddConfigs with
  | nil => simp [CreateDatadogConfigs.loop]
  | cons rdsConfig rdsConfigs ih =>
    simp only [CreateDatadogConfigs.loop]
    cases hit : CreateDatadogConfigs.iteration folding clusterMembers iniConfig default_username
        rdsConfig with
    | error failure =>
      have hfatal := CreateDatadogConfigs.iteration_error_isFatal _ _ _ _ _ hit
      constructor
      · intro _
        exact ⟨rdsConfig, by simp, failure, hit⟩
      · intro _
        exact ⟨failure, hfatal, rfl⟩
    | ok ddConfig =>
      simp only [ih, List.mem_cons, exists_eq_or_imp, hit, exists_false, false_or]
      simp

/-- Related lists agree index by index. -/
theorem forall2_getElem_some {α β : Type} {R : α → β → Prop} {xs : List α} {ys : List β}
    (h : List.Forall₂ R xs ys) (i : Nat) (x : α) (hx : xs[i]? = some x) :
    ∃ y, ys[i]? = some y ∧ R x y := by
  induction h generalizing i with
  | nil => simp at hx
  | cons hxy _ ih =>
    cases i with
    | zero =>
      simp only [List.getElem?_cons_zero, Option.some.injEq] at hx
      subst hx
      exact ⟨_, by simp, hxy⟩
    | succ i =>
      simp only [List.getElem?_cons_succ] at hx
      simpa using ih i hx

/-- A returning run of `CreateDatadogConfigs` pairs every record with the result of its
own loop iteration, index by index. -/
theorem CreateDatadogConfigs_ok_forall2 {folding : CaseFolding}
    (rdsConfigs : List DatabaseState)
    (clusterMembers : List ClusterMember) (iniConfig : IniFile) (ddConfigs : List DatadogConfig)
    (hrun : CreateDatadogConfigs folding rdsConfigs clusterMembers iniConfig = .ok ddConfigs) :
    List.Forall₂
      (fun rdsConfig ddConfig =>
        CreateDatadogConfigs.iteration folding clusterMembers iniConfig
          (iniConfig.MustString "" "user" "dummy_username") rdsConfig = .ok ddConfig)
      rdsConfigs ddConfigs := by
  unfold CreateDatadogConfigs at hrun
  obtain ⟨added, hout, hall⟩ := (CreateDatadogConfigs.loop_ok_iff _ _ _ _ _ _).mp hrun
  simp only [List.nil_append] at hout
  subst hout
  exact hall

/-- The iteration of a record fails exactly when the record is an `aurora` one without
a matching member, or its engine is neither `aurora` nor `mysql`. -/
theorem CreateDatadogConfigs.iteration_error_iff {folding : CaseFolding}
    (clusterMembers : List ClusterMember)
    (iniConfig : IniFile) (default_username : String) (rdsConfig : DatabaseState) :
    (∃ failure,
        CreateDatadogConfigs.iteration folding clusterMembers iniConfig default_username rdsConfig =
          .error failure) ↔
      ((rdsConfig.Engine = "aurora" ∧
          ∀ member ∈ clusterMembers,
            EqualFold folding member.InstanceIdentifier rdsConfig.Identifier = false) ∨
        (rdsConfig.Engine ≠ "aurora" ∧ rdsConfig.Engine ≠ "mysql")) := by
  rw [CreateDatadogConfigs.iteration_eq, ← FindAuroraMember_error_iff]
  by_cases h1 : rdsConfig.Engine = "aurora"
  · simp only [h1, if_true, true_and, ne_eq, not_true_eq_false, false_and, or_false]
    cases FindAuroraMember folding clusterMembers rdsConfig.Identifier <;> simp
  · by_cases h2 : rdsConfig.Engine = "mysql" <;> simp [h1, h2]

/-- A failure of the loop is a failure of one of its iterations: it ends the run. -/
theorem CreateDatadogConfigs.loop_error_isFatal {folding : CaseFolding}
    (clusterMembers : List ClusterMember)
    (iniConfig : IniFile) (default_username : String) (rdsConfigs : List DatabaseState)
    (ddConfigs : List DatadogConfig) (failure : Failure)
    (h : CreateDatadogConfigs.loop folding clusterMembers iniConfig default_username rdsConfigs
      ddConfigs = .error failure) :
    failure.isFatal = true := by
  induction rdsConfigs generalizing ddConfigs with
  | nil => simp [CreateDatadogConfigs.loop] at h
  | cons rdsConfig rdsConfigs ih =>
    simp only [CreateDatadogConfigs.loop] at h
    cases hit : CreateDatadogConfigs.iteration folding clusterMembers iniConfig default_username
        rdsConfig with
    | error failure' =>
      rw [hit] at h
      simp only [Except.error.injEq] at h
      subst h
      exact CreateDatadogConfigs.iteration_error_isFatal _ _ _ _ _ hit
    | ok ddConfig =>
      rw [hit] at h
      exact ih _ h

/-- A failure of `CreateDatadogConfigs` is a panic or a process exit, never an error
value handed back. -/
theorem CreateDatadogConfigs_error_isFatal {folding : CaseFolding}
    (rdsConfigs : List DatabaseState)
    (clusterMembers : List ClusterMember) (iniConfig : IniFile) (failure : Failure)
    (h : CreateDatadogConfigs folding rdsConfigs clusterMembers iniConfig = .error failure) :
    failure.isFatal = true :=
  CreateDatadogConfigs.loop_error_isFatal _ _ _ _ _ _ h

/-- A returning run has one descriptor per record, in order, with the copied connection
fields. -/
theorem CreateDatadogConfigs_connection_fields {folding : CaseFolding}
    (rdsConfigs : List DatabaseState)
    (clusterMembers : List ClusterMember) (iniConfig : IniFile) (ddConfigs : List DatadogConfig)
    (hrun : CreateDatadogConfigs folding rdsConfigs clusterMembers iniConfig = .ok ddConfigs) :
    ddConfigs.length = rdsConfigs.length ∧
    ∀ (i : Nat) (rdsConfig : DatabaseState), rdsConfigs[i]? = some rdsConfig →
      ∃ ddConfig, ddConfigs[i]? = some ddConfig ∧
        ddConfig.Server = rdsConfig.Hostname ∧ ddConfig.Port = rdsConfig.Port := by
  have hall := CreateDatadogConfigs_ok_forall2 _ _ _ _ hrun
  refine ⟨hall.length_eq.symm, fun i rdsConfig hrecord => ?_⟩
  obtain ⟨ddConfig, hget, hit⟩ := forall2_getElem_some hall i rdsConfig hrecord
  refine ⟨ddConfig, hget, ?_⟩
  rw [CreateDatadogConfigs.iteration_eq] at hit
  split_ifs at hit
  · split at hit
    · simp only [Except.ok.injEq] at hit
      subst hit
      simp [CreateDatadogConfigs.descriptor]
    · simp at hit
  · simp only [Except.ok.injEq] at hit
    subst hit
    simp [CreateDatadogConfigs.descriptor]

/-! ## Config synthesizer: engine-dependent options -/

/-- C4: in a run of `CreateDatadogConfigs` that returns, the descriptor of a record with
`Engine == aurora` whose cluster-member fact `FindAuroraMember` finds has
`ExtraInnoDb == true` and `DisableInnoDb == false` when that member is the writer,
`ExtraInnoDb == false` and `DisableInnoDb == true` when it is a reader, and
`Replication == false` in both cases, whatever the record's `MySQLReplication` flag;
and the run over that record alone returns exactly one descriptor. -/
theorem CreateDatadogConfigs_aurora_options (folding : CaseFolding)
    (rdsConfigs : List DatabaseState)
    (clusterMembers : List ClusterMember) (iniConfig : IniFile) (ddConfigs : List DatadogConfig)
    (i : Nat) (rdsConfig : DatabaseState) (clusterMember : ClusterMember)
    (hrun : CreateDatadogConfigs folding rdsConfigs clusterMembers iniConfig = .ok ddConfigs)
    (hrecord : rdsConfigs[i]? = some rdsConfig)
    (hengine : rdsConfig.Engine = "aurora")
    (hfind : FindAuroraMember folding clusterMembers rdsConfig.Identifier = .ok clusterMember) :
    (∃ ddConfig, ddConfigs[i]? = some ddConfig ∧
      (clusterMember.IsWriter = true →
        ddConfig.Options.ExtraInnoDb = true ∧ ddConfig.Options.DisableInnoDb = false) ∧
      (clusterMember.IsWriter = false →
        ddConfig.Options.ExtraInnoDb = false ∧ ddConfig.Options.DisableInnoDb = true) ∧
      ddConfig.Options.Replication = false) ∧
    ∃ ddConfig, CreateDatadogConfigs folding [rdsConfig] clusterMembers iniConfig = .ok [ddConfig] := by
  constructor
  · obtain ⟨ddConfig, hget, hit⟩ :=
      forall2_getElem_some (CreateDatadogConfigs_ok_forall2 _ _ _ _ hrun) i rdsConfig hrecord
    refine ⟨ddConfig, hget, ?_⟩
    rw [CreateDatadogConfigs.iteration_eq] at hit
    simp only [hengine, if_true, hfind, Except.ok.injEq] at hit
    subst hit
    cases clusterMember.IsWriter <;> simp [CreateDatadogConfigs.descriptor]
  · simp [CreateDatadogConfigs, CreateDatadogConfigs.loop, CreateDatadogConfigs.iteration_eq,
      hengine, hfind]

/-- The Aurora rule on the cluster `prod-cluster`: the record of the reader `prod-2`,
second in the list and carrying `MySQLReplication == true`, gets the reader options. -/
theorem CreateDatadogConfigs_aurora_options_witness :
    CreateDatadogConfigs asciiFolding
        [sampleState "aurora" "prod-cluster" "prod-1" "vpc-abc" false,
         sampleState "aurora" "prod-cluster" "prod-2" "vpc-abc" true]
        sampleMembers sampleIni =
      .ok [CreateDatadogConfigs.descriptor sampleIni "dummy_username"
             (sampleState "aurora" "prod-cluster" "prod-1" "vpc-abc" false) false true false,
           CreateDatadogConfigs.descriptor sampleIni "dummy_username"
             (sampleState "aurora" "prod-cluster" "prod-2" "vpc-abc" true) false false true] ∧
    [sampleState "aurora" "prod-cluster" "prod-1" "vpc-abc" false,
      sampleState "aurora" "prod-cluster" "prod-2" "vpc-abc" true][1]? =
      some (sampleState "aurora" "prod-cluster" "prod-2" "vpc-abc" true) ∧
    (sampleState "aurora" "prod-cluster" "prod-2" "vpc-abc" true).Engine = "aurora" ∧
    FindAuroraMember asciiFolding sampleMembers
        (sampleState "aurora" "prod-cluster" "prod-2" "vpc-abc" true).Identifier =
      .ok { Cluster := "prod-cluster", InstanceIdentifier := "prod-2", IsWriter := false } ∧
    ∃ ddConfig,
      [CreateDatadogConfigs.descriptor sampleIni "dummy_username"
          (sampleState "aurora" "prod-cluster" "prod-1" "vpc-abc" false) false true false,
        CreateDatadogConfigs.descriptor sampleIni "dummy_username"
          (sampleState "aurora" "prod-cluster" "prod-2" "vpc-abc" true) false false true][1]? =
        some ddConfig ∧
      ddConfig.Options.ExtraInnoDb = false ∧ ddConfig.Options.DisableInnoDb = true ∧
      ddConfig.Options.Replication = false := by
  have hrun :
      CreateDatadogConfigs asciiFolding
          [sampleState "aurora" "prod-cluster" "prod-1" "vpc-abc" false,
           sampleState "aurora" "prod-cluster" "prod-2" "vpc-abc" true]
          sampleMembers sampleIni =
        .ok [CreateDatadogConfigs.descriptor sampleIni "dummy_username"
               (sampleState "aurora" "prod-cluster" "prod-1" "vpc-abc" false) false true false,
             CreateDatadogConfigs.descriptor sampleIni "dummy_username"
               (sampleState "aurora" "prod-cluster" "prod-2" "vpc-abc" true) false false true] := by
    rfl
  have hfind :
      FindAuroraMember asciiFolding sampleMembers
          (sampleState "aurora" "prod-cluster" "prod-2" "vpc-abc" true).Identifier =
        .ok { Cluster := "prod-cluster", InstanceIdentifier := "prod-2", IsWriter := false } := by
    rfl
  obtain ⟨ddConfig, hget, -, hreader, hreplication⟩ :=
    (CreateDatadogConfigs_aurora_options asciiFolding _ sampleMembers sampleIni _ 1
      (sampleState "aurora" "prod-cluster" "prod-2" "vpc-abc" true) _ hrun rfl rfl hfind).1
  exact ⟨hrun, rfl, rfl, hfind, ddConfig, hget, (hreader rfl).1, (hreader rfl).2, hreplication⟩

/-- C5: for every record with `Engine == mysql`, whatever the cluster-member list and
the credentials store contain, the run of `CreateDatadogConfigs` over that record alone
returns exactly one descriptor, and in every run that returns the descriptor of the
record has `DisableInnoDb == false`, `ExtraInnoDb == true` and `Replication` equal to
the record's `MySQLReplication` flag. -/
theorem CreateDatadogConfigs_mysql_options (folding : CaseFolding)
    (rdsConfigs : List DatabaseState)
    (clusterMembers : List ClusterMember) (iniConfig : IniFile) (ddConfigs : List DatadogConfig)
    (i : Nat) (rdsConfig : DatabaseState)
    (hrun : CreateDatadogConfigs folding rdsConfigs clusterMembers iniConfig = .ok ddConfigs)
    (hrecord : rdsConfigs[i]? = some rdsConfig)
    (hengine : rdsConfig.Engine = "mysql") :
    (∃ ddConfig, ddConfigs[i]? = some ddConfig ∧
      ddConfig.Options.DisableInnoDb = false ∧ ddConfig.Options.ExtraInnoDb = true ∧
      ddConfig.Options.Replication = rdsConfig.MySQLReplication) ∧
    ∃ ddConfig, CreateDatadogConfigs folding [rdsConfig] clusterMembers iniConfig = .ok [ddConfig] ∧
      ddConfig.Options.DisableInnoDb = false ∧ ddConfig.Options.ExtraInnoDb = true ∧
      ddConfig.Options.Replication = rdsConfig.MySQLReplication := by
  have hne : rdsConfig.Engine ≠ "aurora" := by
    rw [hengine]; decide
  constructor
  · obtain ⟨ddConfig, hget, hit⟩ :=
      forall2_getElem_some (CreateDatadogConfigs_ok_forall2 _ _ _ _ hrun) i rdsConfig hrecord
    refine ⟨ddConfig, hget, ?_⟩
    rw [CreateDatadogConfigs.iteration_eq, if_neg hne, if_pos hengine] at hit
    simp only [Except.ok.injEq] at hit
    subst hit
    simp [CreateDatadogConfigs.descriptor]
  · simp [CreateDatadogConfigs, CreateDatadogConfigs.loop, CreateDatadogConfigs.iteration_eq,
      hengine, CreateDatadogConfigs.descriptor]

/-- The MySQL rule on a replica `db-a` of `db-a-primary`, with an empty member list and a
store without a section for it: the descriptor is produced, with replication on. -/
theorem CreateDatadogConfigs_mysql_options_witness :
    CreateDatadogConfigs asciiFolding [sampleState "mysql" "db-a-primary" "db-a" "vpc-abc" true] [] sampleIni =
      .ok [CreateDatadogConfigs.descriptor sampleIni "dummy_username"
            (sampleState "mysql" "db-a-primary" "db-a" "vpc-abc" true) true true false] ∧
    [sampleState "mysql" "db-a-primary" "db-a" "vpc-abc" true][0]? =
      some (sampleState "mysql" "db-a-primary" "db-a" "vpc-abc" true) ∧
    (sampleState "mysql" "db-a-primary" "db-a" "vpc-abc" true).Engine = "mysql" ∧
    ∃ ddConfig,
      [CreateDatadogConfigs.descriptor sampleIni "dummy_username"
          (sampleState "mysql" "db-a-primary" "db-a" "vpc-abc" true) true true false][0]? =
        some ddConfig ∧
      ddConfig.Options.DisableInnoDb = false ∧ ddConfig.Options.ExtraInnoDb = true ∧
      ddConfig.Options.Replication = true :=
  ⟨rfl, rfl, rfl,
   (CreateDatadogConfigs_mysql_options asciiFolding
      [sampleState "mysql" "db-a-primary" "db-a" "vpc-abc" true] [] sampleIni
      [CreateDatadogConfigs.descriptor sampleIni "dummy_username"
        (sampleState "mysql" "db-a-primary" "db-a" "vpc-abc" true) true true false]
      0 (sampleState "mysql" "db-a-primary" "db-a" "vpc-abc" true) rfl rfl rfl).1⟩

/-! ## Config synthesizer: one descriptor per record, and the fatal cases -/

/-- C6: whenever `CreateDatadogConfigs` returns, the output list has exactly as many
descriptors as the input has records, and for every index `i` the `i`-th descriptor
exists and its `Server` and `Port` are the `i`-th record's `Hostname` and `Port`. -/
theorem CreateDatadogConfigs_one_per_record (folding : CaseFolding)
    (rdsConfigs : List DatabaseState)
    (clusterMembers : List ClusterMember) (iniConfig : IniFile) (ddConfigs : List DatadogConfig)
    (hrun : CreateDatadogConfigs folding rdsConfigs clusterMembers iniConfig = .ok ddConfigs) :
    ddConfigs.length = rdsConfigs.length ∧
    ∀ (i : Nat) (rdsConfig : DatabaseState), rdsConfigs[i]? = some rdsConfig →
      ∃ ddConfig, ddConfigs[i]? = some ddConfig ∧
        ddConfig.Server = rdsConfig.Hostname ∧ ddConfig.Port = rdsConfig.Port := by
  have hall := CreateDatadogConfigs_ok_forall2 _ _ _ _ hrun
  refine ⟨hall.length_eq.symm, fun i rdsConfig hrecord => ?_⟩
  obtain ⟨ddConfig, hget, hit⟩ := forall2_getElem_some hall i rdsConfig hrecord
  refine ⟨ddConfig, hget, ?_⟩
  rw [CreateDatadogConfigs.iteration_eq] at hit
  split_ifs at hit
  · split at hit
    · simp only [Except.ok.injEq] at hit
      subst hit
      simp [CreateDatadogConfigs.descriptor]
    · simp at hit
  · simp only [Except.ok.injEq] at hit
    subst hit
    simp [CreateDatadogConfigs.descriptor]

/-- The count and the copied connection fields on a run over an Aurora reader followed
by a MySQL primary: two descriptors, in the order of the records. -/
theorem CreateDatadogConfigs_one_per_record_witness :
    CreateDatadogConfigs asciiFolding
        [sampleState "aurora" "prod-cluster" "prod-2" "vpc-abc" false,
         sampleState "mysql" "db-a" "db-a" "vpc-abc" false]
        sampleMembers sampleIni =
      .ok [CreateDatadogConfigs.descriptor sampleIni "dummy_username"
             (sampleState "aurora" "prod-cluster" "prod-2" "vpc-abc" false) false false true,
           CreateDatadogConfigs.descriptor sampleIni "dummy_username"
             (sampleState "mysql" "db-a" "db-a" "vpc-abc" false) false true false] ∧
    [CreateDatadogConfigs.descriptor sampleIni "dummy_username"
        (sampleState "aurora" "prod-cluster" "prod-2" "vpc-abc" false) false false true,
      CreateDatadogConfigs.descriptor sampleIni "dummy_username"
        (sampleState "mysql" "db-a" "db-a" "vpc-abc" false) false true false].length =
      [sampleState "aurora" "prod-cluster" "prod-2" "vpc-abc" false,
        sampleState "mysql" "db-a" "db-a" "vpc-abc" false].length :=
  ⟨rfl,
   (CreateDatadogConfigs_one_per_record asciiFolding
      [sampleState "aurora" "prod-cluster" "prod-2" "vpc-abc" false,
       sampleState "mysql" "db-a" "db-a" "vpc-abc" false]
      sampleMembers sampleIni
      [CreateDatadogConfigs.descriptor sampleIni "dummy_username"
         (sampleState "aurora" "prod-cluster" "prod-2" "vpc-abc" false) false false true,
       CreateDatadogConfigs.descriptor sampleIni "dummy_username"
         (sampleState "mysql" "db-a" "db-a" "vpc-abc" false) false true false]
      rfl).1⟩

/-- The run fails, fatally, exactly when some record is an `aurora` one that no member
matches under `EqualFold`, or has an engine other than `aurora` and `mysql`; and it
returns a list exactly when there is no such record. -/
theorem CreateDatadogConfigs_failure_cases (folding : CaseFolding)
    (rdsConfigs : List DatabaseState)
    (clusterMembers : List ClusterMember) (iniConfig : IniFile) :
    ((∃ failure, failure.isFatal = true ∧
        CreateDatadogConfigs folding rdsConfigs clusterMembers iniConfig = .error failure) ↔
      ∃ rdsConfig ∈ rdsConfigs,
        (rdsConfig.Engine = "aurora" ∧
          ∀ member ∈ clusterMembers,
            EqualFold folding member.InstanceIdentifier rdsConfig.Identifier = false) ∨
        (rdsConfig.Engine ≠ "aurora" ∧ rdsConfig.Engine ≠ "mysql")) ∧
    ((∃ ddConfigs, CreateDatadogConfigs folding rdsConfigs clusterMembers iniConfig = .ok ddConfigs) ↔
      ¬ ∃ rdsConfig ∈ rdsConfigs,
        (rdsConfig.Engine = "aurora" ∧
          ∀ member ∈ clusterMembers,
            EqualFold folding member.InstanceIdentifier rdsConfig.Identifier = false) ∨
        (rdsConfig.Engine ≠ "aurora" ∧ rdsConfig.Engine ≠ "mysql")) := by
  have hfatal :
      (∃ failure, failure.isFatal = true ∧
          CreateDatadogConfigs folding rdsConfigs clusterMembers iniConfig = .error failure) ↔
        ∃ rdsConfig ∈ rdsConfigs,
          (rdsConfig.Engine = "aurora" ∧
            ∀ member ∈ clusterMembers,
              EqualFold folding member.InstanceIdentifier rdsConfig.Identifier = false) ∨
          (rdsConfig.Engine ≠ "aurora" ∧ rdsConfig.Engine ≠ "mysql") := by
    unfold CreateDatadogConfigs
    rw [CreateDatadogConfigs.loop_error_iff]
    simp only [CreateDatadogConfigs.iteration_error_iff]
  refine ⟨hfatal, ?_⟩
  cases hrun : CreateDatadogConfigs folding rdsConfigs clusterMembers iniConfig with
  | ok ddConfigs =>
    rw [hrun] at hfatal
    refine ⟨fun _ hbad => ?_, fun _ => ⟨ddConfigs, rfl⟩⟩
    obtain ⟨failure, -, h⟩ := hfatal.mpr hbad
    simp at h
  | error failure =>
    have hbad := hfatal.mp ⟨failure, CreateDatadogConfigs_error_isFatal _ _ _ _ hrun, hrun⟩
    refine ⟨fun h => ?_, fun h => absurd hbad h⟩
    obtain ⟨ddConfigs, h⟩ := h
    simp at h

/-- C7: `CreateDatadogConfigs` fails fatally (a panic or a process exit, and no
descriptor list) if and only if some input record either has `Engine == aurora` and no
member of the cluster-member list equals its instance identifier under case-insensitive
comparison, or has an `Engine` other than `aurora` and `mysql`; and it returns a
descriptor list if and only if there is no such record. On identifiers of ASCII
characters the comparison is equality of the lower-cased strings: the record `PROD-2`
is matched by the member `prod-2` and the run returns, while the record `prod-3`, which
no member of `prod-cluster` matches, ends the run fatally instead of being skipped.
Outside ASCII the comparison follows the folding table: where the table identifies `É`
with `é`, the record `DB-É` is matched by the member `db-é`. -/
theorem CreateDatadogConfigs_fatal_iff (folding : CaseFolding)
    (rdsConfigs : List DatabaseState)
    (clusterMembers : List ClusterMember) (iniConfig : IniFile) :
    ((∃ failure, failure.isFatal = true ∧
        CreateDatadogConfigs folding rdsConfigs clusterMembers iniConfig = .error failure) ↔
      ∃ rdsConfig ∈ rdsConfigs,
        (rdsConfig.Engine = "aurora" ∧
          ∀ member ∈ clusterMembers,
            ¬ caseInsensitiveEq folding member.InstanceIdentifier rdsConfig.Identifier) ∨
        (rdsConfig.Engine ≠ "aurora" ∧ rdsConfig.Engine ≠ "mysql")) ∧
    ((∃ ddConfigs,
        CreateDatadogConfigs folding rdsConfigs clusterMembers iniConfig = .ok ddConfigs) ↔
      ¬ ∃ rdsConfig ∈ rdsConfigs,
        (rdsConfig.Engine = "aurora" ∧
          ∀ member ∈ clusterMembers,
            ¬ caseInsensitiveEq folding member.InstanceIdentifier rdsConfig.Identifier) ∨
        (rdsConfig.Engine ≠ "aurora" ∧ rdsConfig.Engine ≠ "mysql")) ∧
    (∀ s t : String, (∀ c ∈ s.toList, c.toNat < 128) → (∀ c ∈ t.toList, c.toNat < 128) →
      (caseInsensitiveEq folding s t ↔
        s.toList.map Char.toLower = t.toList.map Char.toLower)) ∧
    CreateDatadogConfigs folding
        [sampleState "aurora" "prod-cluster" "PROD-2" "vpc-abc" false] sampleMembers iniConfig =
      .ok [CreateDatadogConfigs.descriptor iniConfig
            (iniConfig.MustString "" "user" "dummy_username")
            (sampleState "aurora" "prod-cluster" "PROD-2" "vpc-abc" false) false false true] ∧
    CreateDatadogConfigs folding
        [sampleState "aurora" "prod-cluster" "prod-3" "vpc-abc" false] sampleMembers iniConfig =
      .error (.panic "Can\x27t find Aurora cluster member: prod-3") ∧
    (folding.fold 'É' = folding.fold 'é' →
      CreateDatadogConfigs folding
          [sampleState "aurora" "prod-cluster" "DB-É" "vpc-abc" false]
          [{ Cluster := "prod-cluster", InstanceIdentifier := "db-é", IsWriter := true }]
          iniConfig =
        .ok [CreateDatadogConfigs.descriptor iniConfig
              (iniConfig.MustString "" "user" "dummy_username")
              (sampleState "aurora" "prod-cluster" "DB-É" "vpc-abc" false) false true false]) := by
  have hcases := CreateDatadogConfigs_failure_cases folding rdsConfigs clusterMembers iniConfig
  simp only [EqualFold_eq_false_iff] at hcases
  refine ⟨hcases.1, hcases.2, fun s t hs ht => caseInsensitiveEq_ascii folding s t hs ht, ?_, ?_,
    fun haccent => ?_⟩
  · have hfind : FindAuroraMember folding sampleMembers "PROD-2" =
        .ok { Cluster := "prod-cluster", InstanceIdentifier := "prod-2", IsWriter := false } := by
      rw [FindAuroraMember_ascii folding sampleMembers "PROD-2" (by decide) (by decide)]
      rfl
    simp only [CreateDatadogConfigs, CreateDatadogConfigs.loop, CreateDatadogConfigs.iteration_eq]
    simp [sampleState, hfind]
  · have hfind : FindAuroraMember folding sampleMembers "prod-3" =
        .error (.error "Aurora instance can\x27t be found") := by
      rw [FindAuroraMember_ascii folding sampleMembers "prod-3" (by decide) (by decide)]
      rfl
    simp only [CreateDatadogConfigs, CreateDatadogConfigs.loop, CreateDatadogConfigs.iteration_eq]
    simp [sampleState, hfind]
  · have hmatch : EqualFold folding "db-é" "DB-É" = true :=
      (EqualFold_iff folding _ _).mpr (caseInsensitiveEq_accent folding haccent)
    simp only [CreateDatadogConfigs, CreateDatadogConfigs.loop, CreateDatadogConfigs.iteration_eq]
    simp [sampleState, FindAuroraMember, hmatch]

/-! ## Location and credential filters -/

/-- A loop that appends the elements passing a test to the slice built so far yields
that slice followed by the passing elements, in order. -/
theorem foldl_append_if {α : Type} (P : α → Prop) [DecidablePred P] (xs acc : List α) :
    xs.foldl (fun kept x => if P x then kept ++ [x] else kept) acc =
      acc ++ xs.filter (fun x => decide (P x)) := by
  induction xs generalizing acc with
  | nil => simp
  | cons x xs ih =>
    by_cases hx : P x
    · simp [List.foldl_cons, ih, hx, List.filter_cons]
    · simp [List.foldl_cons, ih, hx, List.filter_cons]

/-- The credential filter keeps the records whose cluster names a section. -/
theorem ClusterIniFilter_eq_filter (rdsConfigs : List DatabaseState) (iniConfig : IniFile) :
    ClusterIniFilter rdsConfigs iniConfig =
      rdsConfigs.filter (fun config => iniConfig.hasSection config.Cluster) := by
  unfold ClusterIniFilter
  rw [foldl_append_if (fun config : DatabaseState => iniConfig.hasSection config.Cluster = true)]
  simp

/-- The VPC filter keeps the records whose VPC is the target. -/
theorem ClusterVPCFilter_eq_filter (rdsConfigs : List DatabaseState) (vpc : String) :
    ClusterVPCFilter rdsConfigs vpc =
      rdsConfigs.filter (fun config => decide (config.VPC = vpc)) := by
  unfold ClusterVPCFilter
  rw [foldl_append_if (fun config : DatabaseState => config.VPC = vpc)]
  simp

/-- C8: a record is in `ClusterIniFilter(L, store)` if and only if it is in `L` and the
store has the section named by its `Cluster` (the empty `Cluster` included: then the
section asked for is the one of the empty name); the result is the sublist of `L` of
those records, unchanged and in order; and whether a record is retained depends neither
on its position nor on the records around it. -/
theorem ClusterIniFilter_retains_iff (rdsConfigs : List DatabaseState) (iniConfig : IniFile) :
    (∀ config, config ∈ ClusterIniFilter rdsConfigs iniConfig ↔
      config ∈ rdsConfigs ∧ iniConfig.hasSection config.Cluster = true) ∧
    (∀ config, config.Cluster = "" →
      (config ∈ ClusterIniFilter rdsConfigs iniConfig ↔
        config ∈ rdsConfigs ∧ iniConfig.hasSection "" = true)) ∧
    ClusterIniFilter rdsConfigs iniConfig =
      rdsConfigs.filter (fun config => iniConfig.hasSection config.Cluster) ∧
    (ClusterIniFilter rdsConfigs iniConfig).Sublist rdsConfigs ∧
    (∀ (before after : List DatabaseState) (config : DatabaseState),
      ClusterIniFilter (before ++ config :: after) iniConfig =
        ClusterIniFilter before iniConfig ++
          (if iniConfig.hasSection config.Cluster = true then [config] else []) ++
          ClusterIniFilter after iniConfig) := by
  refine ⟨fun config => ?_, fun config hempty => ?_, ClusterIniFilter_eq_filter _ _, ?_, ?_⟩
  · simp [ClusterIniFilter_eq_filter, List.mem_filter]
  · simp [ClusterIniFilter_eq_filter, List.mem_filter, hempty]
  · rw [ClusterIniFilter_eq_filter]
    exact List.filter_sublist _
  · intro before after config
    simp only [ClusterIniFilter_eq_filter, List.filter_append, List.filter_cons]
    by_cases h : iniConfig.hasSection config.Cluster = true <;> simp [h]

/-- C9: `ClusterVPCFilter(L, v)` is exactly the sublist of `L`, in the original order and
with the records unchanged, of the records whose `VPC` equals `v` as a string; with `v`
empty it retains only records whose `VPC` is empty; and it is the empty list exactly
when no record of `L` has VPC `v`. -/
theorem ClusterVPCFilter_exact (rdsConfigs : List DatabaseState) (vpc : String) :
    ClusterVPCFilter rdsConfigs vpc =
      rdsConfigs.filter (fun config => decide (config.VPC = vpc)) ∧
    (ClusterVPCFilter rdsConfigs vpc).Sublist rdsConfigs ∧
    (∀ config, config ∈ ClusterVPCFilter rdsConfigs vpc ↔
      config ∈ rdsConfigs ∧ config.VPC = vpc) ∧
    (∀ config, config ∈ ClusterVPCFilter rdsConfigs "" ↔
      config ∈ rdsConfigs ∧ config.VPC = "") ∧
    (ClusterVPCFilter rdsConfigs vpc = [] ↔ ∀ config ∈ rdsConfigs, config.VPC ≠ vpc) := by
  refine ⟨ClusterVPCFilter_eq_filter _ _, ?_, fun config => ?_, fun config => ?_, ?_⟩
  · rw [ClusterVPCFilter_eq_filter]
    exact List.filter_sublist _
  · simp [ClusterVPCFilter_eq_filter, List.mem_filter]
  · simp [ClusterVPCFilter_eq_filter, List.mem_filter]
  · simp [ClusterVPCFilter_eq_filter, List.filter_eq_nil_iff]

/-- C10: `ClusterVPCFilter` is idempotent: filtering the filtered list by the same VPC
changes nothing. -/
theorem ClusterVPCFilter_idempotent (rdsConfigs : List DatabaseState) (vpc : String) :
    ClusterVPCFilter (ClusterVPCFilter rdsConfigs vpc) vpc = ClusterVPCFilter rdsConfigs vpc := by
  simp only [ClusterVPCFilter_eq_filter, List.filter_filter, Bool.and_self]

/-! ## The order of the sort -/

/-- The Go comparison of strings is the order `<` of `String`. -/
theorem stringLess_iff (s t : String) : stringLess s t = true ↔ s < t := by
  unfold stringLess
  rw [decide_eq_true_iff, String.lt_iff_toList_lt]

/-- No record is `less` than `a` at `b` exactly when `a`, `b` are in ascending order of
`Cluster`, then `Identifier`. -/
theorem less_eq_false_iff (a b : DatabaseState) : main.less b a = false ↔ ascending a b := by
  unfold main.less ascending
  by_cases h : b.Cluster = a.Cluster
  · rw [if_pos h, ← Bool.not_eq_true, stringLess_iff, not_lt]
    constructor
    · intro hle
      exact Or.inr ⟨h.symm, hle⟩
    · rintro (hlt | ⟨-, hle⟩)
      · exact absurd h.symm (ne_of_lt hlt)
      · exact hle
  · rw [if_neg h, ← Bool.not_eq_true, stringLess_iff, not_lt]
    constructor
    · intro hle
      exact Or.inl (lt_of_le_of_ne hle (fun heq => h heq.symm))
    · rintro (hlt | ⟨heq, -⟩)
      · exact le_of_lt hlt
      · exact absurd heq.symm h

/-- The ascending order compares any two records. -/
theorem ascending_total (a b : DatabaseState) : ascending a b ∨ ascending b a := by
  unfold ascending
  rcases lt_trichotomy a.Cluster b.Cluster with h | h | h
  · exact Or.inl (Or.inl h)
  · rcases le_total a.Identifier b.Identifier with h2 | h2
    · exact Or.inl (Or.inr ⟨h, h2⟩)
    · exact Or.inr (Or.inr ⟨h.symm, h2⟩)
  · exact Or.inr (Or.inl h)

/-- The ascending order is transitive. -/
theorem ascending_trans (a b c : DatabaseState) (hab : ascending a b) (hbc : ascending b c) :
    ascending a c := by
  unfold ascending at *
  rcases hab with h1 | ⟨h1, h2⟩
  · rcases hbc with h3 | ⟨h3, -⟩
    · exact Or.inl (lt_trans h1 h3)
    · exact Or.inl (h3 ▸ h1)
  · rcases hbc with h3 | ⟨h3, h4⟩
    · exact Or.inl (h1 ▸ h3)
    · exact Or.inr ⟨h1.trans h3, le_trans h2 h4⟩

/-- Two records each ascending to the other have the same sort key. -/
theorem ascending_antisymm (a b : DatabaseState) (hab : ascending a b) (hba : ascending b a) :
    sortKey a = sortKey b := by
  unfold ascending at *
  unfold sortKey
  rcases hab with h1 | ⟨h1, h2⟩
  · rcases hba with h3 | ⟨h3, -⟩
    · exact absurd h3 (lt_asymm h1)
    · exact absurd h3.symm (ne_of_lt h1)
  · rcases hba with h3 | ⟨-, h4⟩
    · exact absurd h1.symm (ne_of_lt h3)
    · rw [h1, le_antisymm h2 h4]

/-- The insertion sort meets the contract of `sort.Slice`. -/
theorem insertionSortSlice_sortsSlice : SortsSlice insertionSortSlice := by
  intro databaseStates
  haveI : IsTotal DatabaseState (fun a b => main.less b a = false) :=
    ⟨fun a b => by simpa only [less_eq_false_iff] using ascending_total a b⟩
  haveI : IsTrans DatabaseState (fun a b => main.less b a = false) :=
    ⟨fun a b c => by simpa only [less_eq_false_iff] using ascending_trans a b c⟩
  exact ⟨List.perm_insertionSort _ _, List.sorted_insertionSort _ _⟩

/-- A list of records with pairwise distinct sort keys has one sorted arrangement. -/
theorem sorted_perm_unique (xs ys : List DatabaseState) (hperm : xs.Perm ys)
    (hxs : xs.Pairwise (fun a b => main.less b a = false))
    (hys : ys.Pairwise (fun a b => main.less b a = false))
    (hdistinct : (xs.map sortKey).Nodup) : xs = ys := by
  have hinj : ∀ a ∈ xs, ∀ b ∈ xs, sortKey a = sortKey b → a = b :=
    fun a ha b hb hkey => List.inj_on_of_nodup_map hdistinct ha hb hkey
  let r : DatabaseState → DatabaseState → Prop :=
    fun a b => ascending a b ∧ (ascending b a → a = b)
  haveI : IsAntisymm DatabaseState r := ⟨fun a b hab hba => hab.2 hba.1⟩
  have hxs' : xs.Pairwise r := by
    refine List.Pairwise.imp_of_mem ?_ hxs
    intro a b ha hb hle
    rw [less_eq_false_iff] at hle
    exact ⟨hle, fun hba => hinj a ha b hb (ascending_antisymm a b hle hba)⟩
  have hys' : ys.Pairwise r := by
    refine List.Pairwise.imp_of_mem ?_ hys
    intro a b ha hb hle
    rw [less_eq_false_iff] at hle
    exact ⟨hle, fun hba =>
      hinj a (hperm.symm.subset ha) b (hperm.symm.subset hb) (ascending_antisymm a b hle hba)⟩
  exact List.eq_of_perm_of_sorted hperm hxs' hys'

/-- A sort meeting the contract gives the same list on two arrangements of records with
pairwise distinct sort keys. -/
theorem SortsSlice.eq_of_perm (sortSlice : List DatabaseState → List DatabaseState)
    (hsort : SortsSlice sortSlice) (xs ys : List DatabaseState) (hperm : xs.Perm ys)
    (hdistinct : (xs.map sortKey).Nodup) : sortSlice xs = sortSlice ys := by
  have hx := hsort xs
  have hy := hsort ys
  refine sorted_perm_unique _ _ (hx.1.trans (hperm.trans hy.1.symm)) hx.2 hy.2 ?_
  exact ((hx.1.map sortKey).nodup_iff).mpr hdistinct

/-- A sort meeting the contract leaves a sorted list of records with pairwise distinct
sort keys as it is. -/
theorem SortsSlice.eq_self (sortSlice : List DatabaseState → List DatabaseState)
    (hsort : SortsSlice sortSlice) (xs : List DatabaseState)
    (hsorted : xs.Pairwise (fun a b => main.less b a = false))
    (hdistinct : (xs.map sortKey).Nodup) : sortSlice xs = xs := by
  have hx := hsort xs
  refine sorted_perm_unique _ _ hx.1 hx.2 hsorted ?_
  exact ((hx.1.map sortKey).nodup_iff).mpr hdistinct

/-! ## The pipeline of `main`: helper lemmas -/

/-- The parsing loop returns exactly when every remaining instance is accepted, and then
it returns `databaseStates` followed by the accepted records, in order. -/
theorem main.parseInstances_ok_iff (DBInstances : List DBInstance)
    (databaseStates states : List DatabaseState) :
    main.parseInstances DBInstances databaseStates = .ok states ↔
      (∀ dbInstance ∈ DBInstances, ∃ state, ParseAwsRdsInstance dbInstance = .ok state) ∧
      states = databaseStates ++
        DBInstances.filterMap (fun dbInstance => (ParseAwsRdsInstance dbInstance).toOption) := by
  induction DBInstances generalizing databaseStates with
  | nil => simp [main.parseInstances, eq_comm]
  | cons dbInstance DBInstances ih =>
    simp only [main.parseInstances]
    cases hparse : ParseAwsRdsInstance dbInstance with
    | ok state =>
      simp [ih, hparse, Except.toOption]
    | error failure =>
      cases failure <;> simp [hparse]

/-- A failure of the parsing loop is a process exit or a panic: it ends the run. -/
theorem main.parseInstances_error_isFatal (DBInstances : List DBInstance)
    (databaseStates : List DatabaseState) (failure : Failure)
    (h : main.parseInstances DBInstances databaseStates = .error failure) :
    failure.isFatal = true := by
  induction DBInstances generalizing databaseStates with
  | nil => simp [main.parseInstances] at h
  | cons dbInstance DBInstances ih =>
    simp only [main.parseInstances] at h
    cases hparse : ParseAwsRdsInstance dbInstance with
    | ok state =>
      rw [hparse] at h
      exact ih _ h
    | error failure' =>
      rw [hparse] at h
      cases failure' <;> simp only [Except.error.injEq] at h <;> subst h <;> rfl

/-- Once the instances are parsed, the pipeline is the synthesis over the sorted and
filtered records. -/
theorem main.pipeline_of_parse_ok (folding : CaseFolding)
    (sortSlice : List DatabaseState → List DatabaseState)
    (DBInstances : List DBInstance) (clusterMembers : List ClusterMember)
    (filtered_vpc : String) (local_ini : IniFile) (states : List DatabaseState)
    (hparse : main.parseInstances DBInstances [] = .ok states) :
    main.pipeline folding sortSlice DBInstances clusterMembers filtered_vpc local_ini =
      CreateDatadogConfigs folding (main.filtered sortSlice states filtered_vpc local_ini)
        clusterMembers local_ini := by
  simp [main.pipeline, main.filtered, hparse, bind, Except.bind]

/-- A failure of the parsing loop is the result of the pipeline. -/
theorem main.pipeline_of_parse_error (folding : CaseFolding)
    (sortSlice : List DatabaseState → List DatabaseState)
    (DBInstances : List DBInstance) (clusterMembers : List ClusterMember)
    (filtered_vpc : String) (local_ini : IniFile) (failure : Failure)
    (hparse : main.parseInstances DBInstances [] = .error failure) :
    main.pipeline folding sortSlice DBInstances clusterMembers filtered_vpc local_ini =
      .error failure := by
  simp [main.pipeline, hparse, bind, Except.bind]

/-- The list handed to the synthesis is a sublist of the sorted list. -/
theorem main.filtered_sublist (sortSlice : List DatabaseState → List DatabaseState)
    (states : List DatabaseState) (filtered_vpc : String) (local_ini : IniFile) :
    (main.filtered sortSlice states filtered_vpc local_ini).Sublist (sortSlice states) := by
  unfold main.filtered
  rw [ClusterIniFilter_eq_filter, ClusterVPCFilter_eq_filter]
  exact (List.filter_sublist _).trans (List.filter_sublist _)

/-! ## The two filters commute -/

/-- C11: the two filters commute: `ClusterIniFilter(ClusterVPCFilter(L, v), s)` and
`ClusterVPCFilter(ClusterIniFilter(L, s), v)` are the same list, with the same records
in the same order. -/
theorem ClusterFilters_commute (rdsConfigs : List DatabaseState) (vpc : String)
    (iniConfig : IniFile) :
    ClusterIniFilter (ClusterVPCFilter rdsConfigs vpc) iniConfig =
      ClusterVPCFilter (ClusterIniFilter rdsConfigs iniConfig) vpc := by
  simp only [ClusterIniFilter_eq_filter, ClusterVPCFilter_eq_filter, List.filter_filter]
  congr 1
  funext config
  exact Bool.and_comm _ _

/-! ## The sorted order reaches the output -/

/-- C12: in the pipeline of `main`, with any sort that meets the contract of
`sort.Slice`, the record list handed to `CreateDatadogConfigs` is sorted ascending by
`Cluster`, then `Identifier`, in lexical string order, and when the run returns, the
output has one descriptor per handed record, the `i`-th being the descriptor of the
`i`-th record: the order of the sort survives both filters and the synthesis. -/
theorem main_pipeline_sorted (folding : CaseFolding)
    (sortSlice : List DatabaseState → List DatabaseState)
    (hsort : SortsSlice sortSlice) (DBInstances : List DBInstance)
    (clusterMembers : List ClusterMember) (filtered_vpc : String) (local_ini : IniFile)
    (states : List DatabaseState)
    (hparse : main.parseInstances DBInstances [] = .ok states) :
    (main.filtered sortSlice states filtered_vpc local_ini).Pairwise ascending ∧
    main.pipeline folding sortSlice DBInstances clusterMembers filtered_vpc local_ini =
      CreateDatadogConfigs folding (main.filtered sortSlice states filtered_vpc local_ini)
        clusterMembers local_ini ∧
    ∀ ddConfigs,
      main.pipeline folding sortSlice DBInstances clusterMembers filtered_vpc local_ini = .ok ddConfigs →
      ddConfigs.length = (main.filtered sortSlice states filtered_vpc local_ini).length ∧
      ∀ (i : Nat) (rdsConfig : DatabaseState),
        (main.filtered sortSlice states filtered_vpc local_ini)[i]? = some rdsConfig →
        ∃ ddConfig, ddConfigs[i]? = some ddConfig ∧
          CreateDatadogConfigs.iteration folding clusterMembers local_ini
            (local_ini.MustString "" "user" "dummy_username") rdsConfig = .ok ddConfig ∧
          ddConfig.Server = rdsConfig.Hostname ∧ ddConfig.Port = rdsConfig.Port := by
  have hpipe := main.pipeline_of_parse_ok folding sortSlice DBInstances clusterMembers filtered_vpc
    local_ini states hparse
  refine ⟨?_, hpipe, ?_⟩
  · have hsorted : (sortSlice states).Pairwise ascending :=
      (hsort states).2.imp (fun {a b} h => (less_eq_false_iff a b).mp h)
    exact hsorted.sublist (main.filtered_sublist _ _ _ _)
  · intro ddConfigs hrun
    rw [hpipe] at hrun
    have hall := CreateDatadogConfigs_ok_forall2 _ _ _ _ hrun
    refine ⟨hall.length_eq.symm, fun i rdsConfig hrecord => ?_⟩
    obtain ⟨ddConfig, hget, hit⟩ := forall2_getElem_some hall i rdsConfig hrecord
    obtain ⟨ddConfig', hget', hserver, hport⟩ :=
      (CreateDatadogConfigs_connection_fields _ _ _ _ hrun).2 i rdsConfig hrecord
    rw [hget] at hget'
    simp only [Option.some.injEq] at hget'
    subst hget'
    exact ⟨ddConfig, hget, hit, hserver, hport⟩

/-- The order of the output on the cluster `prod-cluster`, the reader yielded first:
under the insertion sort the list handed to the synthesis is in ascending order. -/
theorem main_pipeline_sorted_witness :
    SortsSlice insertionSortSlice ∧
    main.parseInstances [sampleAurora "prod-2", sampleAurora "prod-1"] [] =
      .ok [sampleState "aurora" "prod-cluster" "prod-2" "vpc-abc" false,
           sampleState "aurora" "prod-cluster" "prod-1" "vpc-abc" false] ∧
    (main.filtered insertionSortSlice
        [sampleState "aurora" "prod-cluster" "prod-2" "vpc-abc" false,
         sampleState "aurora" "prod-cluster" "prod-1" "vpc-abc" false]
        "vpc-abc" sampleIni).Pairwise ascending ∧
    main.filtered insertionSortSlice
        [sampleState "aurora" "prod-cluster" "prod-2" "vpc-abc" false,
         sampleState "aurora" "prod-cluster" "prod-1" "vpc-abc" false]
        "vpc-abc" sampleIni =
      [sampleState "aurora" "prod-cluster" "prod-1" "vpc-abc" false,
       sampleState "aurora" "prod-cluster" "prod-2" "vpc-abc" false] :=
  ⟨insertionSortSlice_sortsSlice, rfl,
   (main_pipeline_sorted asciiFolding insertionSortSlice insertionSortSlice_sortsSlice
      [sampleAurora "prod-2", sampleAurora "prod-1"] sampleMembers "vpc-abc" sampleIni
      [sampleState "aurora" "prod-cluster" "prod-2" "vpc-abc" false,
       sampleState "aurora" "prod-cluster" "prod-1" "vpc-abc" false] rfl).1,
   rfl⟩

/-! ## Tags -/

/-- C13: in a run of `CreateDatadogConfigs` that returns, the tag list of the descriptor
of every record has exactly two elements, in this order: `dbinstanceidentifier:` followed
by the instance tag, then `database_group:` followed by the cluster tag; the instance
tag is the value of the key `rename_instance_<Identifier>` of the store section named by
the record's `Cluster` when that key is there and the record's `Identifier` otherwise,
and the cluster tag is the value of the key `rename_cluster` of that section when it is
there and the record's `Cluster` otherwise. With no overrides, instance `db-1` of cluster
`prod` gets exactly `dbinstanceidentifier:db-1`, `database_group:prod`. -/
theorem CreateDatadogConfigs_tags (folding : CaseFolding)
    (rdsConfigs : List DatabaseState)
    (clusterMembers : List ClusterMember) (iniConfig : IniFile) (ddConfigs : List DatadogConfig)
    (i : Nat) (rdsConfig : DatabaseState)
    (hrun : CreateDatadogConfigs folding rdsConfigs clusterMembers iniConfig = .ok ddConfigs)
    (hrecord : rdsConfigs[i]? = some rdsConfig) :
    ∃ ddConfig, ddConfigs[i]? = some ddConfig ∧
      ddConfig.Tags =
        ["dbinstanceidentifier:" ++
            (match iniConfig.str rdsConfig.Cluster ("rename_instance_" ++ rdsConfig.Identifier) with
             | some renamed => renamed
             | none => rdsConfig.Identifier),
         "database_group:" ++
            (match iniConfig.str rdsConfig.Cluster "rename_cluster" with
             | some renamed => renamed
             | none => rdsConfig.Cluster)] ∧
      ddConfig.Tags.length = 2 ∧
      (rdsConfig.Identifier = "db-1" → rdsConfig.Cluster = "prod" →
        iniConfig.str "prod" "rename_instance_db-1" = none →
        iniConfig.str "prod" "rename_cluster" = none →
        ddConfig.Tags = ["dbinstanceidentifier:db-1", "database_group:prod"]) := by
  obtain ⟨ddConfig, hget, hit⟩ :=
    forall2_getElem_some (CreateDatadogConfigs_ok_forall2 _ _ _ _ hrun) i rdsConfig hrecord
  refine ⟨ddConfig, hget, ?_⟩
  have htags : ddConfig.Tags =
      ["dbinstanceidentifier:" ++
          iniConfig.MustString rdsConfig.Cluster ("rename_instance_" ++ rdsConfig.Identifier)
            rdsConfig.Identifier,
       "database_group:" ++
          iniConfig.MustString rdsConfig.Cluster "rename_cluster" rdsConfig.Cluster] := by
    rw [CreateDatadogConfigs.iteration_eq] at hit
    split_ifs at hit
    · split at hit
      · simp only [Except.ok.injEq] at hit
        subst hit
        rfl
      · simp at hit
    · simp only [Except.ok.injEq] at hit
      subst hit
      rfl
  refine ⟨?_, ?_, ?_⟩
  · rw [htags]
    unfold IniFile.MustString
    cases iniConfig.str rdsConfig.Cluster ("rename_instance_" ++ rdsConfig.Identifier) <;>
      cases iniConfig.str rdsConfig.Cluster "rename_cluster" <;> rfl
  · rw [htags]
    rfl
  · intro hid hcluster hinstance hrename
    rw [htags, hid, hcluster]
    have hkey : "rename_instance_" ++ "db-1" = "rename_instance_db-1" := by decide
    rw [hkey]
    unfold IniFile.MustString
    rw [hinstance, hrename]
    decide

/-- The tags of the instance `db-1` of the cluster `prod`, a MySQL primary, under a store
without overrides: exactly `dbinstanceidentifier:db-1`, `database_group:prod`. -/
theorem CreateDatadogConfigs_tags_witness :
    CreateDatadogConfigs asciiFolding [sampleState "mysql" "prod" "db-1" "vpc-abc" false] [] sampleIni =
      .ok [CreateDatadogConfigs.descriptor sampleIni "dummy_username"
            (sampleState "mysql" "prod" "db-1" "vpc-abc" false) false true false] ∧
    [sampleState "mysql" "prod" "db-1" "vpc-abc" false][0]? =
      some (sampleState "mysql" "prod" "db-1" "vpc-abc" false) ∧
    ∃ ddConfig,
      [CreateDatadogConfigs.descriptor sampleIni "dummy_username"
          (sampleState "mysql" "prod" "db-1" "vpc-abc" false) false true false][0]? =
        some ddConfig ∧
      ddConfig.Tags = ["dbinstanceidentifier:db-1", "database_group:prod"] := by
  obtain ⟨ddConfig, hget, -, -, hexample⟩ :=
    CreateDatadogConfigs_tags asciiFolding [sampleState "mysql" "prod" "db-1" "vpc-abc" false] [] sampleIni
      [CreateDatadogConfigs.descriptor sampleIni "dummy_username"
        (sampleState "mysql" "prod" "db-1" "vpc-abc" false) false true false]
      0 (sampleState "mysql" "prod" "db-1" "vpc-abc" false) rfl rfl
  exact ⟨rfl, rfl, ddConfig, hget, hexample rfl rfl rfl rfl⟩

/-! ## Cluster membership: lookup and resolver -/

/-- The lookup, in terms of the library test: the not-found error exactly when the
test fails on every member, otherwise the first member in list order that passes it;
it is `List.find?` on that test, which reads the `InstanceIdentifier` alone. -/
theorem FindAuroraMember_find (folding : CaseFolding)
    (members : List ClusterMember) (searchIdentifer : String) :
    (FindAuroraMember folding members searchIdentifer =
        .error (.error "Aurora instance can\x27t be found") ↔
      ∀ member ∈ members, EqualFold folding member.InstanceIdentifier searchIdentifer = false) ∧
    ((∃ member ∈ members, EqualFold folding member.InstanceIdentifier searchIdentifer = true) ↔
      ∃ before found after, members = before ++ found :: after ∧
        (∀ member ∈ before, EqualFold folding member.InstanceIdentifier searchIdentifer = false) ∧
        EqualFold folding found.InstanceIdentifier searchIdentifer = true ∧
        FindAuroraMember folding members searchIdentifer = .ok found) ∧
    FindAuroraMember folding members searchIdentifer =
      (match members.find? (fun member => EqualFold folding member.InstanceIdentifier searchIdentifer) with
       | some found => .ok found
       | none => .error (.error "Aurora instance can\x27t be found")) := by
  induction members with
  | nil => simp [FindAuroraMember]
  | cons member members ih =>
    obtain ⟨ih1, ih2, ih3⟩ := ih
    by_cases h : EqualFold folding member.InstanceIdentifier searchIdentifer = true
    · refine ⟨by simp [FindAuroraMember, h], ?_, by simp [FindAuroraMember, h]⟩
      constructor
      · intro _
        exact ⟨[], member, members, rfl, by simp, h, by simp [FindAuroraMember, h]⟩
      · intro _
        exact ⟨member, by simp, h⟩
    · have hf : EqualFold folding member.InstanceIdentifier searchIdentifer = false := by
        simpa using h
      refine ⟨by simp [FindAuroraMember, hf, ih1], ?_, by simp [FindAuroraMember, hf, ih3]⟩
      constructor
      · rintro ⟨found, hmem, hfound⟩
        have hmem' : found ∈ members := by
          rcases List.mem_cons.mp hmem with rfl | hmem'
          · rw [hf] at hfound
            exact absurd hfound (by decide)
          · exact hmem'
        obtain ⟨before, found', after, hsplit, hbefore, hmatch, hresult⟩ :=
          ih2.mp ⟨found, hmem', hfound⟩
        refine ⟨member :: before, found', after, by simp [hsplit], ?_, hmatch, ?_⟩
        · intro x hx
          rcases List.mem_cons.mp hx with rfl | hx'
          · exact hf
          · exact hbefore x hx'
        · simp [FindAuroraMember, hf, hresult]
      · rintro ⟨before, found, after, hsplit, -, hmatch, -⟩
        exact ⟨found, by simp [hsplit], hmatch⟩

/-- The lookup does not read the `Cluster` of a member: with every `Cluster` replaced,
the same member is found, with its `Cluster` replaced. -/
theorem FindAuroraMember_map_cluster (folding : CaseFolding) (members : List ClusterMember)
    (searchIdentifer cluster : String) :
    FindAuroraMember folding
        (members.map fun member => { member with Cluster := cluster }) searchIdentifer =
      (FindAuroraMember folding members searchIdentifer).map
        fun member => { member with Cluster := cluster } := by
  induction members with
  | nil => rfl
  | cons member members ih =>
    by_cases h : EqualFold folding member.InstanceIdentifier searchIdentifer = true
    · simp [FindAuroraMember, h, Except.map]
    · simp only [Bool.not_eq_true] at h
      simpa [FindAuroraMember, h] using ih

/-- C14: for every member list and search identifier, `FindAuroraMember` returns the
error `Aurora instance can't be found` if and only if no member's `InstanceIdentifier`
equals the search identifier under case-insensitive comparison; otherwise it returns,
without error, the first member in list order whose `InstanceIdentifier` matches
case-insensitively: every member before it does not match. The test reads the
`InstanceIdentifier` alone: changing every member's `Cluster` changes nothing but the
`Cluster` of the member returned. On identifiers of ASCII characters the comparison is
equality of the lower-cased strings: `PROD-2` finds the member `prod-2` of
`prod-cluster`, and `prod-3` finds none. Outside ASCII the comparison follows the folding
table: where the table identifies `É` with `é`, `DB-É` finds the member `db-é`. -/
theorem FindAuroraMember_first_match (folding : CaseFolding)
    (members : List ClusterMember) (searchIdentifer : String) :
    (FindAuroraMember folding members searchIdentifer =
        .error (.error "Aurora instance can\x27t be found") ↔
      ∀ member ∈ members,
        ¬ caseInsensitiveEq folding member.InstanceIdentifier searchIdentifer) ∧
    ((∃ member ∈ members,
        caseInsensitiveEq folding member.InstanceIdentifier searchIdentifer) ↔
      ∃ before found after, members = before ++ found :: after ∧
        (∀ member ∈ before,
          ¬ caseInsensitiveEq folding member.InstanceIdentifier searchIdentifer) ∧
        caseInsensitiveEq folding found.InstanceIdentifier searchIdentifer ∧
        FindAuroraMember folding members searchIdentifer = .ok found) ∧
    (∀ cluster : String,
      FindAuroraMember folding
          (members.map fun member => { member with Cluster := cluster }) searchIdentifer =
        (FindAuroraMember folding members searchIdentifer).map
          fun member => { member with Cluster := cluster }) ∧
    (∀ s t : String, (∀ c ∈ s.toList, c.toNat < 128) → (∀ c ∈ t.toList, c.toNat < 128) →
      (caseInsensitiveEq folding s t ↔
        s.toList.map Char.toLower = t.toList.map Char.toLower)) ∧
    FindAuroraMember folding sampleMembers "PROD-2" =
      .ok { Cluster := "prod-cluster", InstanceIdentifier := "prod-2", IsWriter := false } ∧
    FindAuroraMember folding sampleMembers "prod-3" =
      .error (.error "Aurora instance can\x27t be found") ∧
    (folding.fold 'É' = folding.fold 'é' →
      FindAuroraMember folding
          [{ Cluster := "prod-cluster", InstanceIdentifier := "db-é", IsWriter := true }]
          "DB-É" =
        .ok { Cluster := "prod-cluster", InstanceIdentifier := "db-é", IsWriter := true }) := by
  have hfind := FindAuroraMember_find folding members searchIdentifer
  simp only [EqualFold_eq_false_iff, EqualFold_iff] at hfind
  refine ⟨hfind.1, hfind.2.1, ?_, fun s t hs ht => caseInsensitiveEq_ascii folding s t hs ht,
    ?_, ?_, fun haccent => ?_⟩
  · exact fun cluster => FindAuroraMember_map_cluster folding members searchIdentifer cluster
  · rw [FindAuroraMember_ascii folding sampleMembers "PROD-2" (by decide) (by decide)]
    rfl
  · rw [FindAuroraMember_ascii folding sampleMembers "prod-3" (by decide) (by decide)]
    rfl
  · have hmatch : EqualFold folding "db-é" "DB-É" = true :=
      (EqualFold_iff folding _ _).mpr (caseInsensitiveEq_accent folding haccent)
    simp [FindAuroraMember, hmatch]

/-- The resolver loop on members with present fields: the slice built so far, followed by
one fact per member, in order. -/
theorem ParseAwsClusterMembers.loop_present (clusterResponse : DBCluster) (cluster : String)
    (hcluster : clusterResponse.DBClusterIdentifier = some cluster)
    (members : List (String × Bool)) (clusterMembers : List ClusterMember) :
    ParseAwsClusterMembers.loop clusterResponse
        (members.map fun member =>
          { DBInstanceIdentifier := some member.1, IsClusterWriter := some member.2 })
        clusterMembers =
      .ok (clusterMembers ++ members.map fun member =>
        { Cluster := cluster, InstanceIdentifier := member.1, IsWriter := member.2 }) := by
  induction members generalizing clusterMembers with
  | nil => simp [ParseAwsClusterMembers.loop]
  | cons member members ih =>
    simp [ParseAwsClusterMembers.loop, hcluster, deref, bind, Except.bind, ih]

/-- A failure of the resolver loop is a panic, never an error value. -/
theorem ParseAwsClusterMembers.loop_error (clusterResponse : DBCluster)
    (responseMembers : List DBClusterMember) (clusterMembers : List ClusterMember)
    (failure : Failure)
    (h : ParseAwsClusterMembers.loop clusterResponse responseMembers clusterMembers =
      .error failure) :
    failure = .panic nilDereference := by
  induction responseMembers generalizing clusterMembers with
  | nil => simp [ParseAwsClusterMembers.loop] at h
  | cons responseMember responseMembers ih =>
    simp only [ParseAwsClusterMembers.loop, bind, Except.bind] at h
    cases h1 : clusterResponse.DBClusterIdentifier with
    | none => simp [h1, deref] at h; exact h.symm
    | some cluster =>
      cases h2 : responseMember.DBInstanceIdentifier with
      | none => simp [h1, h2, deref] at h; exact h.symm
      | some identifier =>
        cases h3 : responseMember.IsClusterWriter with
        | none => simp [h1, h2, h3, deref] at h; exact h.symm
        | some isWriter =>
          simp only [h1, h2, h3, deref] at h
          exact ih _ h

/-- The loop of `main` over clusters with present fields: the list built so far, followed
by the facts of every cluster, cluster after cluster. -/
theorem main.collectClusterMembers_present (clusters : List (String × List (String × Bool)))
    (clusterMembers : List ClusterMember) :
    main.collectClusterMembers
        (clusters.map fun cluster => DBCluster.present cluster.1 cluster.2) clusterMembers =
      .ok (clusterMembers ++ clusters.flatMap fun cluster =>
        cluster.2.map fun member =>
          { Cluster := cluster.1, InstanceIdentifier := member.1, IsWriter := member.2 }) := by
  induction clusters generalizing clusterMembers with
  | nil => simp [main.collectClusterMembers]
  | cons cluster clusters ih =>
    have hparse : ParseAwsClusterMembers (DBCluster.present cluster.1 cluster.2) =
        .ok (cluster.2.map fun member =>
          { Cluster := cluster.1, InstanceIdentifier := member.1, IsWriter := member.2 }) := by
      have h := ParseAwsClusterMembers.loop_present (DBCluster.present cluster.1 cluster.2)
        cluster.1 rfl cluster.2 []
      simpa [ParseAwsClusterMembers, DBCluster.present] using h
    simp [main.collectClusterMembers, hparse, ih]

/-- C15, as stated, fails: on the raw cluster `prod-cluster` with one declared member
`prod-1` whose writer-flag pointer is nil, `ParseAwsClusterMembers` returns no list: it
panics on the nil dereference. -/
theorem ParseAwsClusterMembers_nil_writer_counterexample :
    ParseAwsClusterMembers
        { DBClusterIdentifier := some "prod-cluster",
          DBClusterMembers :=
            [{ DBInstanceIdentifier := some "prod-1", IsClusterWriter := none }] } =
      .error (.panic nilDereference) ∧
    ¬ ∃ clusterMembers,
        ParseAwsClusterMembers
          { DBClusterIdentifier := some "prod-cluster",
            DBClusterMembers :=
              [{ DBInstanceIdentifier := some "prod-1", IsClusterWriter := none }] } =
        .ok clusterMembers := by
  constructor
  · rfl
  · rintro ⟨clusterMembers, h⟩
    have h' : ParseAwsClusterMembers
        { DBClusterIdentifier := some "prod-cluster",
          DBClusterMembers :=
            [{ DBInstanceIdentifier := some "prod-1", IsClusterWriter := none }] } =
        .error (.panic nilDereference) := rfl
    rw [h'] at h
    simp at h

/-- C15, amended: for every raw cluster description whose cluster identifier and whose
members' instance identifiers and writer flags are present, `ParseAwsClusterMembers`
returns exactly one `ClusterMember` per declared member, in the declared order, each
with the cluster's identifier, the member's instance identifier and the member's writer
flag, with no filtering; on every raw cluster description it never returns an error
value; and the loop of `main` concatenates these lists over all clusters, in order, into
one global list. -/
theorem ParseAwsClusterMembers_members (cluster : String) (members : List (String × Bool))
    (clusters : List (String × List (String × Bool))) :
    ParseAwsClusterMembers (DBCluster.present cluster members) =
      .ok (members.map fun member =>
        { Cluster := cluster, InstanceIdentifier := member.1, IsWriter := member.2 }) ∧
    (∀ (clusterResponse : DBCluster) (msg : String),
      ParseAwsClusterMembers clusterResponse ≠ .error (.error msg)) ∧
    main.collectClusterMembers
        (clusters.map fun described => DBCluster.present described.1 described.2) [] =
      .ok (clusters.flatMap fun described =>
        described.2.map fun member =>
          { Cluster := described.1, InstanceIdentifier := member.1, IsWriter := member.2 }) := by
  refine ⟨?_, ?_, ?_⟩
  · have h := ParseAwsClusterMembers.loop_present (DBCluster.present cluster members)
      cluster rfl members []
    simpa [ParseAwsClusterMembers, DBCluster.present] using h
  · intro clusterResponse msg h
    have hpanic := ParseAwsClusterMembers.loop_error _ _ _ _ h
    simp at hpanic
  · simpa using main.collectClusterMembers_present clusters []

/-! ## Credentials -/

/-- C16: in a run of `CreateDatadogConfigs` that returns, the credentials of the
descriptor of every record come from the store section named by the record's `Cluster`:
`ConnectTimeout` is the section's `connect_timeout` and 1 when it is absent; `Pass` is
the section's `password` and `dummy_password` when it is absent; `User` is the
section's `user` and, when it is absent, the `user` key of the global section, itself
`dummy_username` when absent. When the section has the three keys the descriptor
carries exactly their values. -/
theorem CreateDatadogConfigs_credentials (folding : CaseFolding)
    (rdsConfigs : List DatabaseState)
    (clusterMembers : List ClusterMember) (iniConfig : IniFile) (ddConfigs : List DatadogConfig)
    (i : Nat) (rdsConfig : DatabaseState)
    (hrun : CreateDatadogConfigs folding rdsConfigs clusterMembers iniConfig = .ok ddConfigs)
    (hrecord : rdsConfigs[i]? = some rdsConfig) :
    ∃ ddConfig, ddConfigs[i]? = some ddConfig ∧
      ddConfig.ConnectTimeout =
        (match iniConfig.int64 rdsConfig.Cluster "connect_timeout" with
         | some timeout => timeout
         | none => 1) ∧
      ddConfig.Pass =
        (match iniConfig.str rdsConfig.Cluster "password" with
         | some password => password
         | none => "dummy_password") ∧
      ddConfig.User =
        (match iniConfig.str rdsConfig.Cluster "user" with
         | some user => user
         | none =>
           match iniConfig.str "" "user" with
           | some user => user
           | none => "dummy_username") ∧
      (∀ (user password : String) (timeout : Int),
        iniConfig.str rdsConfig.Cluster "user" = some user →
        iniConfig.str rdsConfig.Cluster "password" = some password →
        iniConfig.int64 rdsConfig.Cluster "connect_timeout" = some timeout →
        ddConfig.User = user ∧ ddConfig.Pass = password ∧ ddConfig.ConnectTimeout = timeout) := by
  obtain ⟨ddConfig, hget, hit⟩ :=
    forall2_getElem_some (CreateDatadogConfigs_ok_forall2 _ _ _ _ hrun) i rdsConfig hrecord
  refine ⟨ddConfig, hget, ?_⟩
  have hfields :
      ddConfig.ConnectTimeout = iniConfig.MustInt64 rdsConfig.Cluster "connect_timeout" 1 ∧
      ddConfig.Pass = iniConfig.MustString rdsConfig.Cluster "password" "dummy_password" ∧
      ddConfig.User = iniConfig.MustString rdsConfig.Cluster "user"
        (iniConfig.MustString "" "user" "dummy_username") := by
    rw [CreateDatadogConfigs.iteration_eq] at hit
    split_ifs at hit
    · split at hit
      · simp only [Except.ok.injEq] at hit
        subst hit
        exact ⟨rfl, rfl, rfl⟩
      · simp at hit
    · simp only [Except.ok.injEq] at hit
      subst hit
      exact ⟨rfl, rfl, rfl⟩
  obtain ⟨htimeout, hpass, huser⟩ := hfields
  unfold IniFile.MustInt64 at htimeout
  unfold IniFile.MustString at hpass huser
  refine ⟨?_, ?_, ?_, ?_⟩
  · rw [htimeout]
    cases iniConfig.int64 rdsConfig.Cluster "connect_timeout" <;> rfl
  · rw [hpass]
    cases iniConfig.str rdsConfig.Cluster "password" <;> rfl
  · rw [huser]
    cases iniConfig.str rdsConfig.Cluster "user" <;> cases iniConfig.str "" "user" <;> rfl
  · intro user password timeout h1 h2 h3
    rw [huser, hpass, htimeout, h1, h2, h3]
    exact ⟨rfl, rfl, rfl⟩

/-- The credentials of the writer `prod-1` under the store whose section `prod-cluster`
holds only `user=dd_user`: that user, the default password and the default timeout. -/
theorem CreateDatadogConfigs_credentials_witness :
    CreateDatadogConfigs asciiFolding [sampleState "aurora" "prod-cluster" "prod-1" "vpc-abc" false]
        sampleMembers sampleIni =
      .ok [CreateDatadogConfigs.descriptor sampleIni "dummy_username"
            (sampleState "aurora" "prod-cluster" "prod-1" "vpc-abc" false) false true false] ∧
    [sampleState "aurora" "prod-cluster" "prod-1" "vpc-abc" false][0]? =
      some (sampleState "aurora" "prod-cluster" "prod-1" "vpc-abc" false) ∧
    ∃ ddConfig,
      [CreateDatadogConfigs.descriptor sampleIni "dummy_username"
          (sampleState "aurora" "prod-cluster" "prod-1" "vpc-abc" false) false true false][0]? =
        some ddConfig ∧
      ddConfig.ConnectTimeout = 1 ∧ ddConfig.Pass = "dummy_password" ∧
      ddConfig.User = "dd_user" := by
  obtain ⟨ddConfig, hget, htimeout, hpass, huser, -⟩ :=
    CreateDatadogConfigs_credentials asciiFolding
      [sampleState "aurora" "prod-cluster" "prod-1" "vpc-abc" false] sampleMembers sampleIni
      [CreateDatadogConfigs.descriptor sampleIni "dummy_username"
        (sampleState "aurora" "prod-cluster" "prod-1" "vpc-abc" false) false true false]
      0 (sampleState "aurora" "prod-cluster" "prod-1" "vpc-abc" false) rfl rfl
  exact ⟨rfl, rfl, ddConfig, hget, htimeout, hpass, huser⟩

/-! ## End to end: the cluster `prod-cluster` -/

/-- C17: end to end, for one Aurora cluster `prod-cluster` with writer `prod-1` and reader
`prod-2`, both instances in VPC `vpc-abc`, a store with the section `prod-cluster`
holding `user=dd_user`, and target VPC `vpc-abc`, the run (collect the members, parse,
sort, VPC filter, credential filter, synthesize), with any sort that meets the contract
of `sort.Slice`, outputs exactly two descriptors, the one of `prod-1` first and the one
of `prod-2` second, the first with `ExtraInnoDb == true`, the second with
`DisableInnoDb == true`, both with `User == dd_user`, in either order in which the
instance source yields the two instances. -/
theorem main_run_prod_cluster (folding : CaseFolding)
    (sortSlice : List DatabaseState → List DatabaseState)
    (hsort : SortsSlice sortSlice) (address1 address2 : String) (port1 port2 : Int)
    (engine1 engine2 : String) (source1 source2 : Option String) (local_ini : IniFile)
    (hengine1 : engine1 = "aurora" ∨ engine1 = "aurora-mysql")
    (hengine2 : engine2 = "aurora" ∨ engine2 = "aurora-mysql")
    (hsection : local_ini.hasSection "prod-cluster" = true)
    (huser : local_ini.str "prod-cluster" "user" = some "dd_user") :
    ∃ ddWriter ddReader,
      main.run folding sortSlice [sampleCluster]
          [DBInstance.present address1 port1 "prod-1" "vpc-abc" engine1 source1
             (some "prod-cluster"),
           DBInstance.present address2 port2 "prod-2" "vpc-abc" engine2 source2
             (some "prod-cluster")]
          "vpc-abc" local_ini = .ok [ddWriter, ddReader] ∧
      main.run folding sortSlice [sampleCluster]
          [DBInstance.present address2 port2 "prod-2" "vpc-abc" engine2 source2
             (some "prod-cluster"),
           DBInstance.present address1 port1 "prod-1" "vpc-abc" engine1 source1
             (some "prod-cluster")]
          "vpc-abc" local_ini = .ok [ddWriter, ddReader] ∧
      ddWriter =
        CreateDatadogConfigs.descriptor local_ini (local_ini.MustString "" "user" "dummy_username")
          (prodState address1 port1 "prod-1") false true false ∧
      ddReader =
        CreateDatadogConfigs.descriptor local_ini (local_ini.MustString "" "user" "dummy_username")
          (prodState address2 port2 "prod-2") false false true ∧
      ddWriter.Server = address1 ∧ ddReader.Server = address2 ∧
      ddWriter.Options.ExtraInnoDb = true ∧ ddReader.Options.DisableInnoDb = true ∧
      ddWriter.User = "dd_user" ∧ ddReader.User = "dd_user" := by
  have hparse1 : ParseAwsRdsInstance
      (DBInstance.present address1 port1 "prod-1" "vpc-abc" engine1 source1
        (some "prod-cluster")) = .ok (prodState address1 port1 "prod-1") := by
    rw [ParseAwsRdsInstance_present]
    rcases hengine1 with h | h <;> subst h <;> simp [prodState]
  have hparse2 : ParseAwsRdsInstance
      (DBInstance.present address2 port2 "prod-2" "vpc-abc" engine2 source2
        (some "prod-cluster")) = .ok (prodState address2 port2 "prod-2") := by
    rw [ParseAwsRdsInstance_present]
    rcases hengine2 with h | h <;> subst h <;> simp [prodState]
  have hmembers : main.collectClusterMembers [sampleCluster] [] = .ok sampleMembers := rfl
  have hless : main.less (prodState address2 port2 "prod-2") (prodState address1 port1 "prod-1") =
      false := by
    simp only [main.less, prodState, if_true]
    decide
  have hnodup : ([prodState address1 port1 "prod-1", prodState address2 port2 "prod-2"].map
      sortKey).Nodup := by
    simp only [List.map_cons, List.map_nil, sortKey, prodState]
    decide
  have hsorted12 : sortSlice [prodState address1 port1 "prod-1", prodState address2 port2 "prod-2"] =
      [prodState address1 port1 "prod-1", prodState address2 port2 "prod-2"] := by
    refine SortsSlice.eq_self sortSlice hsort _ ?_ hnodup
    simp [hless]
  have hsorted21 : sortSlice [prodState address2 port2 "prod-2", prodState address1 port1 "prod-1"] =
      [prodState address1 port1 "prod-1", prodState address2 port2 "prod-2"] := by
    rw [← hsorted12]
    refine (SortsSlice.eq_of_perm sortSlice hsort _ _ (List.Perm.swap _ _ _) hnodup).symm
  have hfilter : ClusterIniFilter
      (ClusterVPCFilter [prodState address1 port1 "prod-1", prodState address2 port2 "prod-2"]
        "vpc-abc") local_ini =
      [prodState address1 port1 "prod-1", prodState address2 port2 "prod-2"] := by
    simp [ClusterIniFilter, ClusterVPCFilter, prodState, hsection]
  have hfind1 : FindAuroraMember folding sampleMembers "prod-1" =
      .ok { Cluster := "prod-cluster", InstanceIdentifier := "prod-1", IsWriter := true } := by
    rw [FindAuroraMember_ascii folding sampleMembers "prod-1" (by decide) (by decide)]
    rfl
  have hfind2 : FindAuroraMember folding sampleMembers "prod-2" =
      .ok { Cluster := "prod-cluster", InstanceIdentifier := "prod-2", IsWriter := false } := by
    rw [FindAuroraMember_ascii folding sampleMembers "prod-2" (by decide) (by decide)]
    rfl
  have hsynth : CreateDatadogConfigs folding
      [prodState address1 port1 "prod-1", prodState address2 port2 "prod-2"] sampleMembers
      local_ini =
      .ok [CreateDatadogConfigs.descriptor local_ini
             (local_ini.MustString "" "user" "dummy_username")
             (prodState address1 port1 "prod-1") false true false,
           CreateDatadogConfigs.descriptor local_ini
             (local_ini.MustString "" "user" "dummy_username")
             (prodState address2 port2 "prod-2") false false true] := by
    simp only [CreateDatadogConfigs, CreateDatadogConfigs.loop, CreateDatadogConfigs.iteration_eq]
    simp [prodState, hfind1, hfind2]
  refine ⟨_, _, ?_, ?_, rfl, rfl, rfl, rfl, rfl, rfl, ?_, ?_⟩
  · simp [main.run, main.pipeline, main.parseInstances, hmembers, hparse1, hparse2, bind,
      Except.bind, hsorted12, hfilter, hsynth]
  · simp [main.run, main.pipeline, main.parseInstances, hmembers, hparse1, hparse2, bind,
      Except.bind, hsorted21, hfilter, hsynth]
  · simp [CreateDatadogConfigs.descriptor, IniFile.MustString, prodState, huser]
  · simp [CreateDatadogConfigs.descriptor, IniFile.MustString, prodState, huser]

/-- The end-to-end scenario under the insertion sort and the sample store, the reader
yielded first: the writer's descriptor comes first. -/
theorem main_run_prod_cluster_witness :
    SortsSlice insertionSortSlice ∧
    ("aurora" = "aurora" ∨ "aurora" = "aurora-mysql") ∧
    sampleIni.hasSection "prod-cluster" = true ∧
    sampleIni.str "prod-cluster" "user" = some "dd_user" ∧
    ∃ ddWriter ddReader,
      main.run asciiFolding insertionSortSlice [sampleCluster]
          [DBInstance.present "prod-2.example.com" 3306 "prod-2" "vpc-abc" "aurora" none
             (some "prod-cluster"),
           DBInstance.present "prod-1.example.com" 3306 "prod-1" "vpc-abc" "aurora" none
             (some "prod-cluster")]
          "vpc-abc" sampleIni = .ok [ddWriter, ddReader] ∧
      ddWriter.Server = "prod-1.example.com" ∧ ddReader.Server = "prod-2.example.com" ∧
      ddWriter.Options.ExtraInnoDb = true ∧ ddReader.Options.DisableInnoDb = true ∧
      ddWriter.User = "dd_user" ∧ ddReader.User = "dd_user" := by
  obtain ⟨ddWriter, ddReader, -, hrun, -, -, h1, h2, h3, h4, h5, h6⟩ :=
    main_run_prod_cluster asciiFolding insertionSortSlice insertionSortSlice_sortsSlice
      "prod-1.example.com" "prod-2.example.com" 3306 3306 "aurora" "aurora" none none sampleIni
      (Or.inl rfl) (Or.inl rfl) rfl rfl
  exact ⟨insertionSortSlice_sortsSlice, Or.inl rfl, rfl, rfl, ddWriter, ddReader, hrun,
    h1, h2, h3, h4, h5, h6⟩

/-! ## A MySQL primary and its replica -/

/-- C18: for every plain-MySQL replica of a plain-MySQL primary (both with engine
`mysql`, the primary without replication source, the replica's source being the
primary's identifier), the two normalized records have the same `Cluster`, the primary's
identifier, so `ClusterIniFilter` retains both when the store has the section named by
the primary's identifier and neither when it has not; when both survive, their
descriptors are produced, share the same `database_group` tag, the same credentials and
the same options apart from the `Replication` flag, which is false on the primary and
true on the replica; `Server`, `Port` and the `dbinstanceidentifier` tag are those of
each instance. -/
theorem mysql_replica_pair (folding : CaseFolding)
    (addressP addressR : String) (portP portR : Int)
    (primary replica vpcP vpcR : String) (clusterP clusterR : Option String)
    (clusterMembers : List ClusterMember) (iniConfig : IniFile) :
    ∃ stateP stateR,
      ParseAwsRdsInstance
          (DBInstance.present addressP portP primary vpcP "mysql" none clusterP) = .ok stateP ∧
      ParseAwsRdsInstance
          (DBInstance.present addressR portR replica vpcR "mysql" (some primary) clusterR) =
        .ok stateR ∧
      stateP.Cluster = primary ∧ stateR.Cluster = primary ∧
      ClusterIniFilter [stateP, stateR] iniConfig =
        (if iniConfig.hasSection primary = true then [stateP, stateR] else []) ∧
      (∀ rdsConfigs : List DatabaseState,
        (stateP ∈ ClusterIniFilter rdsConfigs iniConfig ↔
          stateP ∈ rdsConfigs ∧ iniConfig.hasSection primary = true) ∧
        (stateR ∈ ClusterIniFilter rdsConfigs iniConfig ↔
          stateR ∈ rdsConfigs ∧ iniConfig.hasSection primary = true)) ∧
      ∃ ddP ddR,
        CreateDatadogConfigs folding [stateP, stateR] clusterMembers iniConfig = .ok [ddP, ddR] ∧
        ddP.Tags = ["dbinstanceidentifier:" ++
            iniConfig.MustString primary ("rename_instance_" ++ primary) primary,
          "database_group:" ++ iniConfig.MustString primary "rename_cluster" primary] ∧
        ddR.Tags = ["dbinstanceidentifier:" ++
            iniConfig.MustString primary ("rename_instance_" ++ replica) replica,
          "database_group:" ++ iniConfig.MustString primary "rename_cluster" primary] ∧
        ddP.Options.Replication = false ∧ ddR.Options.Replication = true ∧
        ddR.Options = { ddP.Options with Replication := true } ∧
        ddR.User = ddP.User ∧ ddR.Pass = ddP.Pass ∧ ddR.ConnectTimeout = ddP.ConnectTimeout ∧
        ddP.Server = addressP ∧ ddP.Port = portP ∧
        ddR.Server = addressR ∧ ddR.Port = portR := by
  refine ⟨{ Engine := "mysql", Cluster := primary, Identifier := primary, Hostname := addressP,
             Port := portP, VPC := vpcP, Username := "", Password := "",
             MySQLReplication := false, AuroraReadReplica := false },
           { Engine := "mysql", Cluster := primary, Identifier := replica, Hostname := addressR,
             Port := portR, VPC := vpcR, Username := "", Password := "",
             MySQLReplication := true, AuroraReadReplica := false },
           ?_, ?_, rfl, rfl, ?_, ?_, ?_⟩
  · simp [ParseAwsRdsInstance_present]
  · simp [ParseAwsRdsInstance_present]
  · by_cases h : iniConfig.hasSection primary = true <;> simp [ClusterIniFilter, h]
  · intro rdsConfigs
    simp [ClusterIniFilter_eq_filter, List.mem_filter]
  · refine ⟨CreateDatadogConfigs.descriptor iniConfig
        (iniConfig.MustString "" "user" "dummy_username")
        { Engine := "mysql", Cluster := primary, Identifier := primary, Hostname := addressP,
          Port := portP, VPC := vpcP, Username := "", Password := "",
          MySQLReplication := false, AuroraReadReplica := false } false true false,
      CreateDatadogConfigs.descriptor iniConfig
        (iniConfig.MustString "" "user" "dummy_username")
        { Engine := "mysql", Cluster := primary, Identifier := replica, Hostname := addressR,
          Port := portR, VPC := vpcR, Username := "", Password := "",
          MySQLReplication := true, AuroraReadReplica := false } true true false,
      ?_, rfl, rfl, rfl, rfl, rfl, rfl, rfl, rfl, rfl, rfl, rfl, rfl⟩
    simp only [CreateDatadogConfigs, CreateDatadogConfigs.loop, CreateDatadogConfigs.iteration_eq]
    simp

/-! ## A rejected instance aborts the run -/

/-- The parsing loop over accepted instances followed by others goes on from the others
with the accepted records appended. -/
theorem main.parseInstances_append (before rest : List DBInstance)
    (databaseStates : List DatabaseState)
    (hbefore : ∀ dbInstance ∈ before, ∃ state, ParseAwsRdsInstance dbInstance = .ok state) :
    main.parseInstances (before ++ rest) databaseStates =
      main.parseInstances rest
        (databaseStates ++
          before.filterMap (fun dbInstance => (ParseAwsRdsInstance dbInstance).toOption)) := by
  induction before generalizing databaseStates with
  | nil => simp
  | cons dbInstance before ih =>
    obtain ⟨state, hstate⟩ := hbefore dbInstance (by simp)
    have hrest : ∀ other ∈ before, ∃ state, ParseAwsRdsInstance other = .ok state :=
      fun other hother => hbefore other (by simp [hother])
    simp [main.parseInstances, hstate, ih _ hrest, Except.toOption]

/-- C19: in the pipeline of `main` a single instance that `ParseAwsRdsInstance` rejects
aborts the whole run, whatever the target VPC, the store and the other instances are:
the run ends in the parsing loop with a fatal failure and no descriptor list, and when
the instances before the rejected one are accepted the failure is `os.Exit(11)`. An
instance with an engine other than `mysql`, `aurora` and `aurora-mysql` (its other fields
present) is such a rejected instance. -/
theorem main_pipeline_rejected_aborts (folding : CaseFolding)
    (sortSlice : List DatabaseState → List DatabaseState)
    (DBInstances : List DBInstance) (clusterMembers : List ClusterMember)
    (filtered_vpc : String) (local_ini : IniFile) (rejected : DBInstance) (msg : String)
    (hmem : rejected ∈ DBInstances)
    (hrejected : ParseAwsRdsInstance rejected = .error (.error msg)) :
    (∃ failure, failure.isFatal = true ∧
      main.parseInstances DBInstances [] = .error failure ∧
      main.pipeline folding sortSlice DBInstances clusterMembers filtered_vpc local_ini =
        .error failure) ∧
    (¬ ∃ ddConfigs,
      main.pipeline folding sortSlice DBInstances clusterMembers filtered_vpc local_ini =
        .ok ddConfigs) ∧
    (∀ before after : List DBInstance, DBInstances = before ++ rejected :: after →
      (∀ dbInstance ∈ before, ∃ state, ParseAwsRdsInstance dbInstance = .ok state) →
      main.pipeline folding sortSlice DBInstances clusterMembers filtered_vpc local_ini =
        .error (.exit 11)) ∧
    (∀ (address : String) (port : Int) (identifier vpcId engine : String)
        (source cluster : Option String),
      engine ≠ "mysql" → engine ≠ "aurora" → engine ≠ "aurora-mysql" →
      ParseAwsRdsInstance
          (DBInstance.present address port identifier vpcId engine source cluster) =
        .error (.error "Unknown RDS engine type")) := by
  have hfail : ∃ failure, failure.isFatal = true ∧
      main.parseInstances DBInstances [] = .error failure := by
    cases hparse : main.parseInstances DBInstances [] with
    | ok states =>
      obtain ⟨state, hstate⟩ := ((main.parseInstances_ok_iff _ _ _).mp hparse).1 rejected hmem
      rw [hrejected] at hstate
      simp at hstate
    | error failure =>
      exact ⟨failure, main.parseInstances_error_isFatal _ _ _ hparse, rfl⟩
  obtain ⟨failure, hfatal, hparse⟩ := hfail
  have hpipe := main.pipeline_of_parse_error folding sortSlice DBInstances clusterMembers filtered_vpc
    local_ini failure hparse
  refine ⟨⟨failure, hfatal, hparse, hpipe⟩, ?_, ?_, ?_⟩
  · rintro ⟨ddConfigs, hok⟩
    rw [hpipe] at hok
    simp at hok
  · intro before after hsplit hbefore
    apply main.pipeline_of_parse_error
    rw [hsplit, main.parseInstances_append before _ [] hbefore]
    simp [main.parseInstances, hrejected]
  · intro address port identifier vpcId engine source cluster h1 h2 h3
    rw [ParseAwsRdsInstance_present]
    simp [h1, h2, h3]

/-- The abort on the describe response of the Aurora writer `prod-1` followed by a
`postgres` instance, with a target VPC that matches neither: the run ends with
`os.Exit(11)`. -/
theorem main_pipeline_rejected_aborts_witness :
    sampleInstance "postgres" none none ∈
      [sampleAurora "prod-1", sampleInstance "postgres" none none] ∧
    ParseAwsRdsInstance (sampleInstance "postgres" none none) =
      .error (.error "Unknown RDS engine type") ∧
    main.pipeline asciiFolding insertionSortSlice
        [sampleAurora "prod-1", sampleInstance "postgres" none none] sampleMembers "vpc-xyz"
        sampleIni = .error (.exit 11) := by
  have hmem : sampleInstance "postgres" none none ∈
      [sampleAurora "prod-1", sampleInstance "postgres" none none] := by simp
  refine ⟨hmem, rfl, ?_⟩
  exact (main_pipeline_rejected_aborts asciiFolding insertionSortSlice
    [sampleAurora "prod-1", sampleInstance "postgres" none none] sampleMembers "vpc-xyz"
    sampleIni (sampleInstance "postgres" none none) "Unknown RDS engine type" hmem rfl).2.2.1
    [sampleAurora "prod-1"] [] rfl (by
      intro dbInstance hin
      simp only [List.mem_singleton] at hin
      subst hin
      exact ⟨_, rfl⟩)

/-! ## The output does not depend on the order of the instances -/

/-- C20: for a fixed cluster-member list, store and target VPC, any sort that meets the
contract of `sort.Slice`, and two instance lists that are permutations of one another,
all accepted by `ParseAwsRdsInstance` and with pairwise distinct `(Cluster, Identifier)`
pairs after normalization, the second list is accepted too, its records are a
permutation of those of the first, and the pipeline (parse, sort, VPC filter, credential
filter, synthesize) gives the identical result: the same descriptor list. -/
theorem main_pipeline_order_independent (folding : CaseFolding)
    (sortSlice : List DatabaseState → List DatabaseState)
    (hsort : SortsSlice sortSlice) (instances₁ instances₂ : List DBInstance)
    (clusterMembers : List ClusterMember) (filtered_vpc : String) (local_ini : IniFile)
    (states₁ : List DatabaseState)
    (hperm : instances₁.Perm instances₂)
    (hparse : main.parseInstances instances₁ [] = .ok states₁)
    (hdistinct : (states₁.map sortKey).Nodup) :
    (∃ states₂, main.parseInstances instances₂ [] = .ok states₂ ∧ states₂.Perm states₁ ∧
      sortSlice states₂ = sortSlice states₁) ∧
    main.pipeline folding sortSlice instances₁ clusterMembers filtered_vpc local_ini =
      main.pipeline folding sortSlice instances₂ clusterMembers filtered_vpc local_ini ∧
    ∀ ddConfigs,
      main.pipeline folding sortSlice instances₁ clusterMembers filtered_vpc local_ini = .ok ddConfigs →
      main.pipeline folding sortSlice instances₂ clusterMembers filtered_vpc local_ini = .ok ddConfigs := by
  obtain ⟨haccepted, hstates⟩ := (main.parseInstances_ok_iff _ _ _).mp hparse
  simp only [List.nil_append] at hstates
  have hparse₂ : main.parseInstances instances₂ [] =
      .ok (instances₂.filterMap (fun dbInstance => (ParseAwsRdsInstance dbInstance).toOption)) := by
    rw [main.parseInstances_ok_iff]
    exact ⟨fun dbInstance hin => haccepted dbInstance (hperm.symm.subset hin), by simp⟩
  have hstates_perm :
      (instances₂.filterMap (fun dbInstance => (ParseAwsRdsInstance dbInstance).toOption)).Perm
        states₁ := by
    rw [hstates]
    exact (hperm.filterMap _).symm
  have hsorted : sortSlice
      (instances₂.filterMap (fun dbInstance => (ParseAwsRdsInstance dbInstance).toOption)) =
      sortSlice states₁ :=
    (SortsSlice.eq_of_perm sortSlice hsort _ _ hstates_perm.symm hdistinct).symm
  have hequal : main.pipeline folding sortSlice instances₁ clusterMembers filtered_vpc local_ini =
      main.pipeline folding sortSlice instances₂ clusterMembers filtered_vpc local_ini := by
    rw [main.pipeline_of_parse_ok _ _ _ _ _ _ _ hparse,
      main.pipeline_of_parse_ok _ _ _ _ _ _ _ hparse₂]
    unfold main.filtered
    rw [hsorted]
  exact ⟨⟨_, hparse₂, hstates_perm, hsorted⟩, hequal, fun ddConfigs h => hequal ▸ h⟩

/-- The order independence on the cluster `prod-cluster` under the insertion sort: the
reader first or the writer first, the pipeline gives the same result. -/
theorem main_pipeline_order_independent_witness :
    SortsSlice insertionSortSlice ∧
    [sampleAurora "prod-2", sampleAurora "prod-1"].Perm
      [sampleAurora "prod-1", sampleAurora "prod-2"] ∧
    main.parseInstances [sampleAurora "prod-2", sampleAurora "prod-1"] [] =
      .ok [sampleState "aurora" "prod-cluster" "prod-2" "vpc-abc" false,
           sampleState "aurora" "prod-cluster" "prod-1" "vpc-abc" false] ∧
    ([sampleState "aurora" "prod-cluster" "prod-2" "vpc-abc" false,
      sampleState "aurora" "prod-cluster" "prod-1" "vpc-abc" false].map sortKey).Nodup ∧
    main.pipeline asciiFolding insertionSortSlice [sampleAurora "prod-2", sampleAurora "prod-1"]
        sampleMembers "vpc-abc" sampleIni =
      main.pipeline asciiFolding insertionSortSlice [sampleAurora "prod-1", sampleAurora "prod-2"]
        sampleMembers "vpc-abc" sampleIni :=
  ⟨insertionSortSlice_sortsSlice, List.Perm.swap _ _ _, rfl, by decide,
   (main_pipeline_order_independent asciiFolding insertionSortSlice insertionSortSlice_sortsSlice
      [sampleAurora "prod-2", sampleAurora "prod-1"] [sampleAurora "prod-1", sampleAurora "prod-2"]
      sampleMembers "vpc-abc" sampleIni
      [sampleState "aurora" "prod-cluster" "prod-2" "vpc-abc" false,
       sampleState "aurora" "prod-cluster" "prod-1" "vpc-abc" false]
      (List.Perm.swap _ _ _) rfl (by decide)).2.1⟩

end RdsDatadogConfig
